import Mathlib

/-!
Verification development for the shipment-analytics query pipeline.

The Python sources are shallowly embedded as executable Lean definitions:

* strings are `String` / `List Char`; Python `in` (substring) is `containsSub`;
* the small regular expressions of the sources (`shp-\d{7}`, `[a-z]{2}-[a-z]{3}`,
  `to\s+([a-z0-9\-]+)`, `(?:top|first|limit|get)\s+(\d+)`, `\b(\d+)\b`, `sku-\d+`)
  are embedded as explicit left-to-right scanners with the same leftmost-match,
  greedy semantics;
* timestamps are modelled as integers (days); a missing timestamp is `none`,
  and, as with pandas `NaT`, every order comparison against a missing
  timestamp yields `false`;
* rational numbers stand for the Python floats; `round2` models rounding to
  two decimal places (`round(x, 2)`);
* pandas DataFrames are lists of `Row` records, and the mutable cached table
  of `query_engine.py` is modelled by explicit state passing:
  a query function returns the value of the cache after the call.
-/

/-! ### Generic character and list helpers -/

/-- Does `p` occur as a prefix of `t`? (`str.startswith`). -/
def startsWithL : List Char → List Char → Bool
  | [], _ => true
  | _ :: _, [] => false
  | p :: ps, c :: cs => p == c && startsWithL ps cs

/-- Does `p` occur as a contiguous substring of `t`? (Python `p in t`). -/
def containsSub (p : List Char) : List Char → Bool
  | [] => startsWithL p []
  | c :: cs => startsWithL p (c :: cs) || containsSub p cs

/-- Python `any(w in t for w in ws)`. -/
def containsAny (t : List Char) (ws : List String) : Bool :=
  ws.any (fun w => containsSub w.toList t)

def lowerL (l : List Char) : List Char := l.map Char.toLower

def upperL (l : List Char) : List Char := l.map Char.toUpper

/-- Python `str.strip()`: drop whitespace from both ends. -/
def stripL (l : List Char) : List Char :=
  ((l.dropWhile Char.isWhitespace).reverse.dropWhile Char.isWhitespace).reverse

/-- Python `s.lower().strip()` applied to a `String`, as a character list. -/
def lowerStrip (s : String) : List Char := stripL (lowerL s.toList)

/-- Python `s.strip().upper()` for shipment-id normalization. -/
def normUp (s : String) : String := String.mk (upperL (stripL s.toList))

/-- The character class `[a-z]` of the location regexes. -/
def isLowerAZ (c : Char) : Bool := 'a' ≤ c && c ≤ 'z'

/-- The character class `[a-z0-9\-]` of the to/from token regexes. -/
def isTokenChar (c : Char) : Bool := isLowerAZ c || c.isDigit || c == '-'

/-- Word characters for `\b` boundaries: `[A-Za-z0-9_]`. -/
def isWordChar (c : Char) : Bool := c.isAlpha || c.isDigit || c == '_'

/-- Decimal value of a digit run, as produced by Python `int(...)`. -/
def natOfDigits (l : List Char) : Nat :=
  l.foldl (fun n c => 10 * n + (c.toNat - 48)) 0

/-- Python dict comprehension `{k: v for k, v in d.items() if v is not None}`. -/
def stripNone : List (String × Option String) → List (String × String)
  | [] => []
  | (k, some v) :: t => (k, v) :: stripNone t
  | (_, none) :: t => stripNone t

/-- Insert into a list sorted by `le` (used to model deterministic sorting). -/
def insertSorted (le : α → α → Bool) (a : α) : List α → List α
  | [] => [a]
  | b :: t => if le a b then a :: b :: t else b :: insertSorted le a t

/-- Deterministic sort by `le`, modelling `DataFrame.sort_values` for a fixed
tie-break. -/
def sortWith (le : α → α → Bool) (l : List α) : List α :=
  l.foldr (insertSorted le) []

/-- Order-preserving deduplication, as pandas `Series.unique()` (first
occurrence order). -/
def uniqueFirst [BEq α] (l : List α) : List α :=
  l.foldl (fun acc a => if acc.contains a then acc else acc ++ [a]) []

/-- Python `round(x, 2)`: round to two decimal places.  (Python rounds
half-to-even on floats; on the exact values arising in theorems below the two
conventions agree, and the bounds proved only use `|round2 x - x| ≤ 1/200`.) -/
def round2 (x : ℚ) : ℚ := ((round (x * 100) : ℤ) : ℚ) / 100

/-- Python `f"{n:,}"`: decimal digits grouped by thousands. -/
def commaChunks : Nat → List Char → List Char
  | _, [] => []
  | i, c :: t =>
    c :: (if (i + 1) % 3 == 0 && t ≠ [] then [','] else []) ++ commaChunks (i + 1) t

def natComma (n : Nat) : String :=
  String.mk ((commaChunks 0 (toString n).toList.reverse).reverse)

/-- Rendering of a rounded rate in response templates (decimal rendering of
the two-decimal rational; only templates, never compared in theorems). -/
def rateStr (x : ℚ) : String :=
  let n : ℤ := round (x * 100)
  toString (n / 100) ++ "." ++ toString ((n % 100) / 10) ++ toString (n % 10)

/-- Rendering of an optional timestamp in response templates
(`shp.get('arrived_at', 'N/A')`; calendar formatting abstracted to the
integer-day rendering). -/
def optDateStr : Option Int → String
  | some d => toString d
  | none => "N/A"

/-! ### The shipment row

One CSV row (`shipment_data_1M.csv` schema).  Timestamps are integer days;
`arrived_at` is `none` for in-transit rows (pandas `NaN`/`NaT`). -/

structure Row where
  shipment_id : String
  sku : String
  quantity : Int
  source_location : String
  destination_location : String
  status : String
  departed_at : Option Int
  expected_arrival : Option Int
  arrived_at : Option Int
  deriving Repr, DecidableEq

/-- `a <= b` on timestamp columns: comparisons against a missing value are
`false` (pandas `NaT` semantics). -/
def leOpt : Option Int → Option Int → Bool
  | some a, some b => a ≤ b
  | _, _ => false

/-- `a > b` on timestamp columns: comparisons against a missing value are
`false` (pandas `NaT` semantics). -/
def gtOpt : Option Int → Option Int → Bool
  | some a, some b => b < a
  | _, _ => false

/-! ### Leftmost-match scanners for the sources' regular expressions

Each `is...At` function tries to match the pattern at the head of the list;
`scanFor` moves the start position left to right, returning the first match,
exactly as `re.search` / `re.findall` do. -/

def scanFor (f : List Char → Option α) : List Char → Option α
  | [] => f []
  | c :: t =>
    match f (c :: t) with
    | some r => some r
    | none => scanFor f t

/-- Match `shp-\d{7}` at the current position (group = the 11 characters). -/
def isShpAt (l : List Char) : Option (List Char) :=
  match l with
  | 's' :: 'h' :: 'p' :: '-' :: d1 :: d2 :: d3 :: d4 :: d5 :: d6 :: d7 :: _ =>
    if [d1, d2, d3, d4, d5, d6, d7].all Char.isDigit then
      some ([ 's', 'h', 'p', '-', d1, d2, d3, d4, d5, d6, d7])
    else none
  | _ => none

/-- Match `sku-\d+` at the current position (greedy digit run). -/
def isSkuAt (l : List Char) : Option (List Char) :=
  match l with
  | 's' :: 'k' :: 'u' :: '-' :: rest =>
    let ds := rest.takeWhile Char.isDigit
    if ds.isEmpty then none else some ([ 's', 'k', 'u', '-'] ++ ds)
  | _ => none

/-- After a keyword: `\s+` then a greedy `[a-z0-9\-]+` group. -/
def wsThenToken (r : List Char) : Option (List Char) :=
  let ws := r.takeWhile Char.isWhitespace
  if ws.isEmpty then none
  else
    let r1 := r.dropWhile Char.isWhitespace
    let tk := r1.takeWhile isTokenChar
    if tk.isEmpty then none else some tk

/-- Match `to\s+([a-z0-9\-]+)` at the current position. -/
def isToAt (l : List Char) : Option (List Char) :=
  match l with
  | 't' :: 'o' :: r => wsThenToken r
  | _ => none

/-- Match `from\s+([a-z0-9\-]+)` at the current position. -/
def isFromAt (l : List Char) : Option (List Char) :=
  match l with
  | 'f' :: 'r' :: 'o' :: 'm' :: r => wsThenToken r
  | _ => none

/-- Match `from\s+([a-z0-9\-]+)\s+to\s+([a-z0-9\-]+)` at the current
position; both groups are greedy token runs, as in the regex. -/
def isFromToAt (l : List Char) : Option (List Char × List Char) :=
  match l with
  | 'f' :: 'r' :: 'o' :: 'm' :: r =>
    match wsThenToken r with
    | none => none
    | some t1 =>
      let r1 := (r.dropWhile Char.isWhitespace).drop t1.length
      let ws2 := r1.takeWhile Char.isWhitespace
      if ws2.isEmpty then none
      else
        match r1.dropWhile Char.isWhitespace with
        | 't' :: 'o' :: r2 =>
          match wsThenToken r2 with
          | none => none
          | some t2 => some (t1, t2)
        | _ => none
  | _ => none

/-- After one of the limit keywords: `\s+(\d+)`. -/
def wsThenDigits (r : List Char) : Option Nat :=
  let ws := r.takeWhile Char.isWhitespace
  if ws.isEmpty then none
  else
    let r1 := r.dropWhile Char.isWhitespace
    let ds := r1.takeWhile Char.isDigit
    if ds.isEmpty then none else some (natOfDigits ds)

/-- Match `(?:top|first|limit|get)\s+(\d+)` at the current position.  The
four alternatives begin with distinct letters, so at most one applies. -/
def isLimitAt (l : List Char) : Option Nat :=
  if startsWithL "top".toList l then wsThenDigits (l.drop 3)
  else if startsWithL "first".toList l then wsThenDigits (l.drop 5)
  else if startsWithL "limit".toList l then wsThenDigits (l.drop 5)
  else if startsWithL "get".toList l then wsThenDigits (l.drop 3)
  else none

/-- `re.findall(r'([a-z]{2}-[a-z]{3})', text)`: non-overlapping,
left-to-right. -/
def findFullCodes : List Char → List String
  | a :: b :: '-' :: d :: e :: f :: rest =>
    if isLowerAZ a && isLowerAZ b && isLowerAZ d && isLowerAZ e && isLowerAZ f then
      String.mk [a, b, '-', d, e, f] :: findFullCodes rest
    else
      findFullCodes (b :: '-' :: d :: e :: f :: rest)
  | _ :: rest => findFullCodes rest
  | [] => []

/-! ## `backend/query_planner.py` — `QueryPlanner` -/

namespace QueryPlanner

def VALID_FIELDS : List String :=
  ["shipment_id", "source_location", "destination_location", "status", "sku",
   "quantity", "departed_at", "expected_arrival", "arrived_at"]

def VALID_OPERATIONS : List String :=
  ["COUNT", "LIST", "FILTER", "AGGREGATE_SUM", "DETAILS", "METRICS",
   "UNIQUE_COUNT", "ANALYTICS"]

def VALID_STATUSES : List String := ["ARRIVED", "IN_TRANSIT", "DELIVERED", "DELAYED"]

/-- `_extract_shipment_id`: first `shp-\d{7}` match, upper-cased. -/
def extract_shipment_id (text : List Char) : Option String :=
  (scanFor isShpAt text).map (fun m => String.mk (upperL m))

/-- `_detect_operation`: the precedence-ordered keyword rules. -/
def detect_operation (text : List Char) : String :=
  if containsAny text ["problematic", "most delays", "worst", "best", "top",
      "bottom", "analysis", "insights", "trending", "critical"] then "ANALYTICS"
  else if containsSub "shp-".toList text then "DETAILS"
  else if containsAny text ["unique", "distinct", "different", "how many sku",
      "how many routes", "count of unique"] then "UNIQUE_COUNT"
  else if containsAny text ["rate", "percentage", "%", "performance", "metric",
        "on-time", "on time", "ontime"] &&
      containsAny text ["rate", "percentage", "%", "performance", "metric"] then
    "METRICS"
  else if containsAny text ["sum", "total units", "volume", "quantity total",
      "total quantity"] then "AGGREGATE_SUM"
  else if containsAny text ["how many", "count", "total", "number of"] then "COUNT"
  else if containsAny text ["list", "show", "get", "display", "all shipments"] then
    "LIST"
  else if containsAny text ["filter", "where", "that are", "which are"] then "FILTER"
  else "LIST"

/-- The `locations_map` alias dictionary. -/
def locations_map : List (String × String) :=
  [("lon", "UK-LON"), ("lax", "US-LAX"), ("sfo", "US-SFO"), ("nyc", "US-NYC"),
   ("fra", "DE-FRA"), ("ams", "NL-AMS"), ("shz", "CN-SHZ"), ("bkk", "TH-BKK"),
   ("del", "IN-DEL"), ("mum", "IN-MUM"), ("sin", "SG-SIN"),
   ("uk-lon", "UK-LON"), ("us-lax", "US-LAX"), ("in-del", "IN-DEL"),
   ("in-mum", "IN-MUM"), ("cn-shz", "CN-SHZ"), ("de-fra", "DE-FRA"),
   ("th-bkk", "TH-BKK"), ("sg-sin", "SG-SIN")]

/-- The `valid_locations` set of `_extract_locations`. -/
def valid_locations : List String :=
  ["US-LAX", "CN-SHZ", "TH-BKK", "UK-LON", "DE-FRA", "SG-SIN", "IN-DEL", "IN-MUM"]

structure LocPair where
  source : Option String
  dest : Option String
  deriving Repr, DecidableEq

/-- One step of the full-code loop: accept a found code only if it maps to a
valid location; first acceptance fills `destination`, the second `source`. -/
def fillFullStep (r : LocPair) (loc : String) : LocPair :=
  match locations_map.lookup loc with
  | none => r
  | some mapped =>
    if valid_locations.contains mapped then
      if r.dest.isNone then { r with dest := some mapped }
      else if r.source.isNone then { r with source := some mapped }
      else r
    else r

/-- Set `source` to the mapped token when it maps to a valid location,
otherwise leave the pair unchanged (one guarded assignment of the source). -/
def setSourceIfValid (r : LocPair) (tok : String) : LocPair :=
  match locations_map.lookup tok with
  | some sm => if valid_locations.contains sm then { r with source := some sm } else r
  | none => r

/-- Set `dest` to the mapped token when it maps to a valid location,
otherwise leave the pair unchanged (one guarded assignment of the
destination). -/
def setDestIfValid (r : LocPair) (tok : String) : LocPair :=
  match locations_map.lookup tok with
  | some dm => if valid_locations.contains dm then { r with dest := some dm } else r
  | none => r

/-- The `to X` block of `_extract_locations`: only fires when no destination
was found yet. -/
def applyToMatch (text : List Char) (r : LocPair) : LocPair :=
  match scanFor isToAt text with
  | some dTok => if r.dest.isNone then setDestIfValid r (String.mk dTok) else r
  | none => r

/-- The `from X` block of `_extract_locations`: only fires when no source was
found yet. -/
def applyFromMatch (text : List Char) (r : LocPair) : LocPair :=
  match scanFor isFromAt text with
  | some sTok => if r.source.isNone then setSourceIfValid r (String.mk sTok) else r
  | none => r

/-- `_extract_locations`. -/
def extract_locations (text : List Char) : LocPair :=
  let r := (findFullCodes text).foldl fillFullStep ⟨none, none⟩
  match scanFor isFromToAt text with
  | some (sTok, dTok) =>
    setDestIfValid (setSourceIfValid r (String.mk sTok)) (String.mk dTok)
  | none => applyFromMatch text (applyToMatch text r)

/-- `_extract_status`. -/
def extract_status (text : List Char) : Option String :=
  if containsAny text ["arrived", "delivered"] then some "ARRIVED"
  else if containsAny text ["in transit", "transit", "in-transit"] then some "IN_TRANSIT"
  else if containsAny text ["delayed", "late", "delay"] then some "DELAYED"
  else none

/-- `_extract_sku`: first `sku-\d+` match, upper-cased. -/
def extract_sku (text : List Char) : Option String :=
  (scanFor isSkuAt text).map (fun m => String.mk (upperL m))

/-- `_extract_limit`: first `(?:top|first|limit|get)\s+(\d+)` match (no range
check, `None` when absent). -/
def extract_limit (text : List Char) : Option Nat :=
  scanFor isLimitAt text

/-- `_extract_sort_field`. -/
def extract_sort_field (text : List Char) : Option String :=
  if containsSub "by date".toList text || containsSub "by departure".toList text then
    some "departed_at"
  else if containsSub "by arrival".toList text || containsSub "by arrived".toList text then
    some "arrived_at"
  else if containsSub "by quantity".toList text || containsSub "by units".toList text then
    some "quantity"
  else if containsSub "by expected".toList text then some "expected_arrival"
  else none

/-- `_determine_fields` (the Python set `VALID_FIELDS` is iterated in its
declared order). -/
def determine_fields (operation : String) (shipment_id : Option String) : List String :=
  if operation == "DETAILS" then VALID_FIELDS
  else if operation == "ANALYTICS" then VALID_FIELDS
  else if operation == "METRICS" then
    ["shipment_id", "status", "expected_arrival", "arrived_at"]
  else if operation == "UNIQUE_COUNT" then VALID_FIELDS
  else if operation == "COUNT" then ["shipment_id"]
  else if operation == "AGGREGATE_SUM" then
    ["shipment_id", "quantity", "destination_location", "source_location"]
  else if operation == "LIST" then
    ["shipment_id", "sku", "source_location", "destination_location", "status", "quantity"]
  else if operation == "FILTER" then
    ["shipment_id", "sku", "source_location", "destination_location", "status", "departed_at"]
  else VALID_FIELDS

structure QueryPlan where
  operation : String
  filters : List (String × String)
  fields : List String
  limit : Option Nat
  sort_by : Option String
  invalid_location_mentioned : Bool
  deriving Repr, DecidableEq

/-- The `filters` dictionary of `plan_query` before null stripping. -/
def raw_filters_of (q : String) : List (String × Option String) :=
  let ql := lowerStrip q
  let operation := detect_operation ql
  let locations := extract_locations ql
  let status := if operation == "METRICS" || operation == "DETAILS" then none
    else extract_status ql
  [("shipment_id", extract_shipment_id ql),
   ("source_location", locations.source),
   ("destination_location", locations.dest),
   ("status", status),
   ("sku", extract_sku ql)]

/-- `plan_query`. -/
def plan_query (q : String) : QueryPlan :=
  let ql := lowerStrip q
  let operation := detect_operation ql
  let locations := extract_locations ql
  let invalid :=
    containsAny ql ["to ", "from "] && locations.dest.isNone && locations.source.isNone &&
      ((scanFor isToAt ql).isSome || (scanFor isFromAt ql).isSome)
  { operation := operation
    filters := stripNone (raw_filters_of q)
    fields := determine_fields operation (extract_shipment_id ql)
    limit := extract_limit ql
    sort_by := extract_sort_field ql
    invalid_location_mentioned := invalid }

end QueryPlanner

/-! ## the backend query-parsing module — `QueryParser._detect_intent` -/

namespace QueryParsing

def VALID_INTENTS : List String :=
  ["DETAILS", "COUNT", "UNIQUE_COUNT", "METRICS", "TOP_K", "FILTER"]

/-- `QueryParser._detect_intent`: here the shipment-id check is first. -/
def detect_intent (q : List Char) : String :=
  if containsSub "shp-".toList q then "DETAILS"
  else if containsAny q ["most delays", "most problematic", "worst", "best route",
      "top", "highest", "lowest", "problematic"] then "TOP_K"
  else if containsAny q ["rate", "percentage", "%", "average", "avg", "mean",
      "on-time", "delivery", "performance"] then "METRICS"
  else if containsAny q ["unique", "distinct", "how many unique", "count unique",
      "how many routes"] then "UNIQUE_COUNT"
  else if containsAny q ["how many", "count", "total"] then "COUNT"
  else if containsAny q ["show", "list", "filter", "where", "find"] then "FILTER"
  else "FILTER"

end QueryParsing

/-! ## `intent_detector.py` — `detect_intent` -/

namespace IntentDetector

structure QueryIntent where
  query_type : String
  filters : List (String × String)
  limit : Nat
  confidence : ℚ
  deriving Repr, DecidableEq

/-- `detect_intent`: sequential phrase-list rules.  When no rule matches the
Python function falls off the end and returns `None`, modelled by `none`.
The `.*` inside some phrases is part of the literal substring checked
(the source uses `in`, not a regex). -/
def detect_intent (user_query : String) : Option QueryIntent :=
  let ql := lowerStrip user_query
  if containsAny ql ["destination order", "order to ", "how many.*destination",
      "shipment.*to ", "orders.*destination", "destination shipment", "to which",
      "orders towards"] then
    some ⟨"orders_by_destination", [], 10, 95/100⟩
  else if containsAny ql ["source order", "order from ", "how many.*source",
      "shipment.*from ", "orders.*source", "source shipment", "from which",
      "orders from source"] then
    some ⟨"orders_by_source", [], 10, 95/100⟩
  else if containsAny ql ["orders per sku", "order count by sku", "shipments per sku",
      "which sku have more order", "sku have more order", "sku with more order",
      "orders by sku", "order per sku", "which sku have more shipment",
      "sku have more shipment", "sku with more shipment", "shipments by sku",
      "shipment per sku", "how many orders.*sku"] then
    some ⟨"orders_per_sku", [], 10, 95/100⟩
  else if containsAny ql ["how many sku", "total sku", "sku count", "number of sku",
      "unique sku", "how many different sku", "total number of sku"] then
    some ⟨"sku_count", [], 10, 95/100⟩
  else if containsAny ql ["top route", "busiest route", "most shipment",
      "popular route", "highest shipment", "most popular route", "peak route",
      "main route", "how many route", "how many different route", "total route",
      "number of route", "unique route"] then
    some ⟨"top_routes", [], 10, 9/10⟩
  else if containsAny ql ["delayed shipment", "late shipment", "delayed delivery",
      "late delivery", "show delayed", "list delayed", "which shipment delayed",
      "delayed order", "delayed orders"] then
    some ⟨"delayed_shipments", [], 10, 95/100⟩
  else if containsAny ql ["sku delay", "problematic sku", "sku by delay",
      "sku performance", "delay by sku", "sku with delay", "sku delay rate",
      "delayed sku", "which sku.*problem", "which sku.*delay", "sku.*most delay",
      "sku.*problematic"] then
    some ⟨"sku_delay_analysis", [], 10, 95/100⟩
  else if containsAny ql ["route delay", "route performance", "route by delay",
      "problematic route", "delay by route", "route with delay", "delayed route",
      "route delay rate", "which route.*delay", "which route.*problem",
      "route.*most delay", "routes have.*most delay"] then
    some ⟨"route_delay_analysis", [], 10, 95/100⟩
  else if containsAny ql ["summary", "overview", "statistics", "total shipments",
      "all shipments", "give me summary", "overall", "total order"] then
    some ⟨"summary_stats", [], 10, 85/100⟩
  else if containsAny ql ["recommend", "suggest", "improve", "strategy", "solution",
      "optimize", "best practice", "efficiency", "opportunity", "insight",
      "analysis", "report"] then
    some ⟨"generative_insights", [], 10, 75/100⟩
  else if containsAny ql ["how", "what", "why"] then
    some ⟨"summary_stats", [], 10, 65/100⟩
  else none

/-- The caller-side guard of `copilot_backend.py` (both variants):
`intent = detect_intent(q); if intent is None: intent = QueryIntent(
query_type='summary_stats', filters={}, confidence=0.5)`. -/
def detect_intent_with_fallback (user_query : String) : QueryIntent :=
  match detect_intent user_query with
  | some intent => intent
  | none => ⟨"summary_stats", [], 10, 1/2⟩

end IntentDetector

/-! ## `backend/hybrid_pipeline.py` — `HybridQueryPipeline` -/

namespace HybridPipeline

open QueryPlanner

/-- The dict returned by the METRICS branch of `_execute_query_plan`
(`records` is always `[]` there). -/
structure MetricsData where
  count : Nat
  total_shipments : Nat
  arrived_shipments : Nat
  in_transit_shipments : Nat
  on_time_shipments : Nat
  delayed_shipments : Nat
  on_time_rate : ℚ
  delay_rate : ℚ
  deriving Repr, DecidableEq

/-- `len(result_df[result_df['status'] == 'ARRIVED'])`. -/
def arrivedCount (rdf : List Row) : Nat :=
  rdf.countP (fun r => r.status == "ARRIVED")

/-- Rows with status ARRIVED that arrived on or before the expected date. -/
def onTimeCount (rdf : List Row) : Nat :=
  rdf.countP (fun r => r.status == "ARRIVED" && leOpt r.arrived_at r.expected_arrival)

/-- Rows with status ARRIVED that arrived after the expected date. -/
def delayedCount (rdf : List Row) : Nat :=
  rdf.countP (fun r => r.status == "ARRIVED" && gtOpt r.arrived_at r.expected_arrival)

/-- The METRICS computation of `_execute_query_plan` on the filtered rows. -/
def compute_metrics (rdf : List Row) : MetricsData :=
  let total_shipments := rdf.length
  let arrived := arrivedCount rdf
  let in_transit := rdf.countP (fun r => r.status == "IN_TRANSIT")
  let on_time := onTimeCount rdf
  let delayed := delayedCount rdf
  let on_time_rate : ℚ := if arrived > 0 then (on_time : ℚ) / (arrived : ℚ) * 100 else 0
  let delay_rate : ℚ := if arrived > 0 then (delayed : ℚ) / (arrived : ℚ) * 100 else 0
  { count := total_shipments
    total_shipments := total_shipments
    arrived_shipments := arrived
    in_transit_shipments := in_transit
    on_time_shipments := on_time
    delayed_shipments := delayed
    on_time_rate := round2 on_time_rate
    delay_rate := round2 delay_rate }

structure SkuStat where
  sku : String
  on_time_rate : ℚ
  total_shipments : Nat
  deriving Repr, DecidableEq

structure RouteStat where
  route : String
  delay_rate : ℚ
  delayed_count : Nat
  total_arrived : Nat
  deriving Repr, DecidableEq

structure AnalyticsData where
  count : Nat
  sku_stats : List SkuStat
  route_stats : List RouteStat
  total_records : Nat
  deriving Repr, DecidableEq

structure UniqueData where
  count : Nat
  unique_skus : Nat
  unique_routes : Nat
  total_records : Nat
  deriving Repr, DecidableEq

structure AggData where
  count : Nat
  total_units : Int
  total_shipments : Nat
  deriving Repr, DecidableEq

/-- The per-operation result dictionaries of `_execute_query_plan`. -/
inductive ResultData where
  | countR (count : Nat) (records : List Row)
  | detailsNotFound
  | detailsR (record : Row)
  | listR (count : Nat) (records : List Row)
  | aggR (d : AggData)
  | analyticsR (d : AnalyticsData)
  | metricsR (m : MetricsData)
  | uniqueR (u : UniqueData)
  deriving Repr, DecidableEq

/-- `result_data.get('count', 0)`. -/
def ResultData.count : ResultData → Nat
  | .countR c _ => c
  | .detailsNotFound => 0
  | .detailsR _ => 1
  | .listR c _ => c
  | .aggR d => d.count
  | .analyticsR d => d.count
  | .metricsR m => m.count
  | .uniqueR u => u.count

/-- `result_data.get('operation')` (the not-found DETAILS dict has no
`operation` key, hence `none`). -/
def ResultData.opName : ResultData → Option String
  | .countR _ _ => some "COUNT"
  | .detailsNotFound => none
  | .detailsR _ => some "DETAILS"
  | .listR _ _ => some "LIST"
  | .aggR _ => some "AGGREGATE_SUM"
  | .analyticsR _ => some "ANALYTICS"
  | .metricsR _ => some "METRICS"
  | .uniqueR _ => some "UNIQUE_COUNT"

/-- The `records` list when the dict carries one (`none` = key absent). -/
def ResultData.recordsOf : ResultData → Option (List Row)
  | .countR _ rs => some rs
  | .detailsNotFound => none
  | .detailsR r => some [r]
  | .listR _ rs => some rs
  | .aggR _ => some []
  | .analyticsR _ => some []
  | .metricsR _ => some []
  | .uniqueR _ => some []

/-- The sequential filter application of `_execute_query_plan` (an extracted
filter value is never the empty string, so Python's truthiness test on
`filters.get(...)` is presence of the key). -/
def apply_plan_filters (filters : List (String × String)) (df : List Row) : List Row :=
  let df1 := match filters.lookup "destination_location" with
    | some v => df.filter (fun r => r.destination_location == v)
    | none => df
  let df2 := match filters.lookup "source_location" with
    | some v => df1.filter (fun r => r.source_location == v)
    | none => df1
  let df3 := match filters.lookup "shipment_id" with
    | some v => df2.filter (fun r => r.shipment_id == v)
    | none => df2
  let df4 := match filters.lookup "status" with
    | some v => df3.filter (fun r => r.status == v)
    | none => df3
  match filters.lookup "sku" with
  | some v => df4.filter (fun r => r.sku == v)
  | none => df4

/-- The ANALYTICS branch: per-SKU on-time rates over the first five distinct
SKUs, per-route delay rates over the first five distinct routes. -/
def compute_analytics (rdf : List Row) : AnalyticsData :=
  let sku_stats := ((uniqueFirst (rdf.map (·.sku))).take 5).filterMap (fun sku =>
    let sku_df := rdf.filter (fun r => r.sku == sku)
    let arrived := sku_df.countP (fun r => r.status == "ARRIVED")
    if arrived > 0 then
      let on_time := sku_df.countP (fun r =>
        r.status == "ARRIVED" && leOpt r.arrived_at r.expected_arrival)
      some ⟨sku, round2 ((on_time : ℚ) / (arrived : ℚ) * 100), sku_df.length⟩
    else none)
  let routeOf := fun (r : Row) => r.source_location ++ " to " ++ r.destination_location
  let route_stats := ((uniqueFirst (rdf.map routeOf)).take 5).filterMap (fun route =>
    let route_df := rdf.filter (fun r => routeOf r == route)
    let arrived := route_df.countP (fun r => r.status == "ARRIVED")
    if arrived > 0 then
      let delayed := route_df.countP (fun r =>
        r.status == "ARRIVED" && gtOpt r.arrived_at r.expected_arrival)
      some ⟨route, round2 ((delayed : ℚ) / (arrived : ℚ) * 100), delayed, arrived⟩
    else none)
  ⟨rdf.length, sku_stats, route_stats, rdf.length⟩

/-- `_execute_query_plan`.  The Python function has no branch for the FILTER
operation and falls off the end returning `None` (which makes the caller
crash); that case is `none` here. -/
def execute_query_plan (df : List Row) (query_plan : QueryPlan) : Option ResultData :=
  let rdf := apply_plan_filters query_plan.filters df
  if query_plan.operation == "COUNT" then
    some (.countR rdf.length (rdf.take 10))
  else if query_plan.operation == "DETAILS" then
    match rdf with
    | [] => some .detailsNotFound
    | shp :: _ => some (.detailsR shp)
  else if query_plan.operation == "LIST" then
    some (.listR rdf.length (rdf.take 20))
  else if query_plan.operation == "AGGREGATE_SUM" then
    some (.aggR ⟨rdf.length, (rdf.map (·.quantity)).sum, rdf.length⟩)
  else if query_plan.operation == "ANALYTICS" then
    some (.analyticsR (compute_analytics rdf))
  else if query_plan.operation == "METRICS" then
    some (.metricsR (compute_metrics rdf))
  else if query_plan.operation == "UNIQUE_COUNT" then
    some (.uniqueR ⟨rdf.length, (uniqueFirst (rdf.map (·.sku))).length,
      (uniqueFirst (rdf.map (fun r => (r.source_location, r.destination_location)))).length,
      rdf.length⟩)
  else none

structure ValidationResult where
  is_valid : Bool
  message : String
  record_count : Nat
  deriving Repr, DecidableEq

/-- `_validate_results`. -/
def validate_results (query_plan : QueryPlan) (result_data : ResultData) : ValidationResult :=
  let count := result_data.count
  if count == 0 then
    ⟨false, "No records found", 0⟩
  else if some query_plan.operation ≠ result_data.opName then
    ⟨false, "Operation mismatch: expected " ++ query_plan.operation ++ ", got " ++
      (match result_data.opName with | some o => o | none => "None"), count⟩
  else
    match result_data.recordsOf with
    | some rs =>
      if rs.length > count then
        ⟨false, "Data integrity check failed: more records than count", count⟩
      else ⟨true, "Valid result with " ++ toString count ++ " records", count⟩
    | none => ⟨true, "Valid result with " ++ toString count ++ " records", count⟩

/-- The Python `or` of `filters.get('destination_location') or
filters.get('source_location')`. -/
def locationOf (filters : List (String × String)) : Option String :=
  match filters.lookup "destination_location" with
  | some l => some l
  | none => filters.lookup "source_location"

/-- `_format_response` (deterministic templates; the result dict is matched
on its shape, which the pipeline always pairs with the right operation). -/
def format_response (query_plan : QueryPlan) (result_data : ResultData) : String :=
  match result_data with
  | .countR count _ =>
    match locationOf query_plan.filters with
    | some location => "There are " ++ natComma count ++ " shipments to " ++ location ++ "."
    | none => "Total count: " ++ natComma count ++ " records."
  | .detailsNotFound => "No data found."
  | .detailsR shp =>
    if shp.status == "IN_TRANSIT" then
      "Shipment " ++ shp.shipment_id ++ ": " ++ shp.sku ++ " (" ++ toString shp.quantity ++
        " units), Status: " ++ shp.status ++ ", From " ++ shp.source_location ++ " to " ++
        shp.destination_location ++ ", Departed: " ++ optDateStr shp.departed_at ++
        ", Expected arrival: " ++ optDateStr shp.expected_arrival ++ "."
    else
      "Shipment " ++ shp.shipment_id ++ ": " ++ shp.sku ++ " (" ++ toString shp.quantity ++
        " units), Status: " ++ shp.status ++ ", From " ++ shp.source_location ++ " to " ++
        shp.destination_location ++ ", Departed: " ++ optDateStr shp.departed_at ++
        ", Expected: " ++ optDateStr shp.expected_arrival ++ ", Arrived: " ++
        optDateStr shp.arrived_at ++ "."
  | .listR count _ =>
    if count == 0 then "No data found." else "Found " ++ natComma count ++ " shipments."
  | .aggR d =>
    if d.total_shipments == 0 then "No data found."
    else "Total units: " ++ natComma d.total_units.toNat ++ " across " ++
      natComma d.total_shipments ++ " shipments."
  | .metricsR m =>
    if m.count == 0 then "No data found."
    else
      let location_text := match locationOf query_plan.filters with
        | some l => " to " ++ l
        | none => ""
      "Shipment metrics" ++ location_text ++ ": On-time rate: " ++ rateStr m.on_time_rate ++
        "%, Delay rate: " ++ rateStr m.delay_rate ++ "%, Total shipments: " ++
        natComma m.total_shipments ++ "."
  | .uniqueR u =>
    if u.count == 0 then "No data found."
    else "Dataset contains " ++ toString u.unique_skus ++ " unique SKUs and " ++
      toString u.unique_routes ++ " unique delivery routes."
  | .analyticsR d =>
    if d.count == 0 then "No data found."
    else
      let skuPart :=
        if d.sku_stats.isEmpty then ""
        else "Problematic SKUs (lowest on-time rates):\n" ++
          String.join ((sortWith (fun a b => a.on_time_rate ≤ b.on_time_rate)
            d.sku_stats).map (fun stat =>
              "- " ++ stat.sku ++ ": " ++ rateStr stat.on_time_rate ++ "% on-time (" ++
                toString stat.total_shipments ++ " shipments)\n"))
      let routePart :=
        if d.route_stats.isEmpty then ""
        else "\nRoutes with Most Delays:\n" ++
          String.join ((sortWith (fun a b => b.delay_rate ≤ a.delay_rate)
            d.route_stats).map (fun stat =>
              "- " ++ stat.route ++ ": " ++ rateStr stat.delay_rate ++ "% delay rate (" ++
                toString stat.delayed_count ++ " delayed out of " ++
                toString stat.total_arrived ++ ")\n"))
      String.mk (stripL ("Analysis Results:\n" ++ skuPart ++ routePart).toList)

structure PipelineResult where
  response : String
  operation : String
  records : Nat
  validated : Bool
  method : String
  filters : Option (List (String × String))
  deriving Repr, DecidableEq

/-- `HybridQueryPipeline.execute`.  Returning `none` models the `AttributeError`
raised when `_execute_query_plan` yields `None` (FILTER operation). -/
def execute (df : List Row) (user_query : String) : Option PipelineResult :=
  let query_plan := plan_query user_query
  if query_plan.invalid_location_mentioned then
    some ⟨"No data found.", query_plan.operation, 0, true, "hybrid_pipeline", none⟩
  else
    match execute_query_plan df query_plan with
    | none => none
    | some result_data =>
      let validation := validate_results query_plan result_data
      if !validation.is_valid then
        some ⟨"No data found.", query_plan.operation, 0, true, "hybrid_pipeline", none⟩
      else
        some ⟨format_response query_plan result_data, query_plan.operation,
          result_data.count, true, "hybrid_pipeline", some query_plan.filters⟩

end HybridPipeline

/-! ## `backend/query_executor.py` — `QueryExecutor` -/

namespace QueryExecutor

structure Instruction where
  intent : String
  filters : List (String × String)
  group_by : List String
  metrics : List String
  top_k : Option Nat
  deriving Repr, DecidableEq

/-- `_apply_filters`: iterate the filter items, narrowing the frame; keys
outside the five known fields are ignored. -/
def apply_filters (df : List Row) (filters : List (String × String)) : List Row :=
  filters.foldl (fun acc kv =>
    if kv.1 == "shipment_id" then acc.filter (fun r => r.shipment_id == kv.2)
    else if kv.1 == "source_location" then acc.filter (fun r => r.source_location == kv.2)
    else if kv.1 == "destination_location" then
      acc.filter (fun r => r.destination_location == kv.2)
    else if kv.1 == "status" then acc.filter (fun r => r.status == kv.2)
    else if kv.1 == "sku" then acc.filter (fun r => r.sku == kv.2)
    else acc) df

structure ExecResult where
  intent : String
  record_count : Nat
  data : List Row
  summary : String
  deriving Repr, DecidableEq

/-- `_execute_details`. -/
def execute_details (df : List Row) : ExecResult :=
  match df with
  | [] => ⟨"DETAILS", 0, [], "Shipment not found"⟩
  | shipment :: _ =>
    ⟨"DETAILS", 1, [shipment],
      "Shipment " ++ shipment.shipment_id ++ ": " ++ shipment.sku ++ " (" ++
        toString shipment.quantity ++ " units) from " ++ shipment.source_location ++
        " to " ++ shipment.destination_location ++ ", Status: " ++ shipment.status⟩

structure ExecMetricsOut where
  record_count : Nat
  on_time_rate : Option ℚ
  delay_rate : Option ℚ
  avg_delay_days : Option ℚ
  total_shipments : Nat
  arrived_shipments : Nat
  in_transit : Nat
  summary : String
  deriving Repr, DecidableEq

/-- `_execute_metrics`: here `delayed` is defined as `arrived - on_time`, and
the rate keys are only present when some row has arrived.  The source frame
has no `delay_days` column, so `avg_delay_days` is the literal 0. -/
def execute_metrics (df : List Row) (filters : List (String × String)) : ExecMetricsOut :=
  let total_shipments := df.length
  let arrived := df.countP (fun r => r.status == "ARRIVED")
  let on_time := df.countP (fun r =>
    r.status == "ARRIVED" && leOpt r.arrived_at r.expected_arrival)
  let delayed := arrived - on_time
  let on_time_rate : Option ℚ :=
    if arrived > 0 then some (round2 ((on_time : ℚ) / (arrived : ℚ) * 100)) else none
  let delay_rate : Option ℚ :=
    if arrived > 0 then some (round2 ((delayed : ℚ) / (arrived : ℚ) * 100)) else none
  let location_text := match filters.lookup "destination_location" with
    | some l => " to " ++ l
    | none => ""
  { record_count := total_shipments
    on_time_rate := on_time_rate
    delay_rate := delay_rate
    avg_delay_days := if arrived > 0 then some 0 else none
    total_shipments := total_shipments
    arrived_shipments := arrived
    in_transit := df.countP (fun r => r.status == "IN_TRANSIT")
    summary := "Shipment metrics" ++ location_text ++ ": On-time rate: " ++
      rateStr (on_time_rate.getD 0) ++ "%, Delay rate: " ++
      rateStr (delay_rate.getD 0) ++ "%, Total shipments: " ++
      natComma total_shipments }

/-- A row of the grouped frame of `_execute_top_k`. -/
structure GroupStat where
  key : List String
  total_shipments : Nat
  delayed_shipments : Nat
  delay_rate : ℚ
  deriving Repr, DecidableEq

/-- Column projection used for group keys (all rendered as strings). -/
def colVal (r : Row) : String → String
  | "shipment_id" => r.shipment_id
  | "source_location" => r.source_location
  | "destination_location" => r.destination_location
  | "status" => r.status
  | "sku" => r.sku
  | "quantity" => toString r.quantity
  | "departed_at" => optDateStr r.departed_at
  | "expected_arrival" => optDateStr r.expected_arrival
  | "arrived_at" => optDateStr r.arrived_at
  | _ => ""

def keyOf (group_by : List String) (r : Row) : List String :=
  group_by.map (colVal r)

/-- Lexicographic order on group keys, matching pandas' sorted `groupby`. -/
def lexLeStr : List String → List String → Bool
  | [], _ => true
  | _ :: _, [] => false
  | a :: as, b :: bs => if a == b then lexLeStr as bs else decide (a < b)

/-- `is_delayed` of `_execute_top_k` (`NaT` comparisons already yield false,
so the `fillna(False)` is absorbed). -/
def is_delayed_row (r : Row) : Bool :=
  gtOpt r.arrived_at r.expected_arrival && r.status == "ARRIVED"

/-- The grouped, delay-rated, delay-rate-descending-sorted frame of
`_execute_top_k` (ties keep the key-sorted order; a fixed deterministic
tie-break, as required for reproducibility). -/
def grouped_delay_stats (df : List Row) (group_by : List String) : List GroupStat :=
  let keys := sortWith lexLeStr (uniqueFirst (df.map (keyOf group_by)))
  let stats := keys.map (fun k =>
    let g := df.filter (fun r => keyOf group_by r == k)
    let delayed := g.countP is_delayed_row
    ⟨k, g.length, delayed, round2 ((delayed : ℚ) / (g.length : ℚ) * 100)⟩)
  sortWith (fun a b => b.delay_rate ≤ a.delay_rate) stats

structure TopKOut where
  record_count : Nat
  top_k : Nat
  data : List GroupStat
  summary : String
  deriving Repr, DecidableEq

def keyLookup (group_by : List String) (k : List String) (c : String) : Option String :=
  (group_by.zip k).lookup c

/-- `_execute_top_k`.  `k = top_k or 10`, so both `None` and `0` fall back
to 10. -/
def execute_top_k (df : List Row) (top_k : Option Nat) (group_by : List String) : TopKOut :=
  let g := if group_by.isEmpty then ["destination_location"] else group_by
  let sorted := grouped_delay_stats df g
  let k := match top_k with
    | some t => if t == 0 then 10 else t
    | none => 10
  let top_results := sorted.take k
  let summary_lines := top_results.map (fun stat =>
    let route :=
      if g.contains "source_location" then
        (keyLookup g stat.key "source_location").getD "N/A" ++ " to " ++
          (keyLookup g stat.key "destination_location").getD "N/A"
      else (keyLookup g stat.key "destination_location").getD "N/A"
    route ++ ": " ++ rateStr stat.delay_rate ++ "% delay rate (" ++
      toString stat.delayed_shipments ++ " of " ++ toString stat.total_shipments ++
      " delayed)")
  { record_count := df.length
    top_k := k
    data := top_results
    summary := if summary_lines.isEmpty then "No data"
      else String.intercalate "\n" summary_lines }

structure UniqueOut where
  record_count : Nat
  unique_skus : Nat
  unique_routes : Nat
  summary : String
  deriving Repr, DecidableEq

def execute_unique_count (df : List Row) : UniqueOut :=
  let unique_skus := (uniqueFirst (df.map (·.sku))).length
  let unique_routes :=
    (uniqueFirst (df.map (fun r => (r.source_location, r.destination_location)))).length
  ⟨df.length, unique_skus, unique_routes,
    "Dataset contains " ++ toString unique_skus ++ " unique SKUs and " ++
      toString unique_routes ++ " unique delivery routes"⟩

def execute_filter (df : List Row) : ExecResult :=
  ⟨"FILTER", df.length, df.take 10, "Found " ++ natComma df.length ++ " records"⟩

def execute_count (df : List Row) : ExecResult :=
  ⟨"COUNT", df.length, [], "Total: " ++ natComma df.length ++ " records"⟩

inductive ExecOutcome where
  | basic (r : ExecResult)
  | metricsOut (m : ExecMetricsOut)
  | topkOut (t : TopKOut)
  | uniqueOut (u : UniqueOut)
  deriving Repr, DecidableEq

/-- `QueryExecutor.execute`: apply filters, short-circuit on an empty frame,
then dispatch on the intent. -/
def execute (instr : Instruction) (df0 : List Row) : ExecOutcome :=
  let result_df := apply_filters df0 instr.filters
  if result_df.isEmpty then
    .basic ⟨instr.intent, 0, [], "No records found matching filters"⟩
  else if instr.intent == "DETAILS" then .basic (execute_details result_df)
  else if instr.intent == "COUNT" then .basic (execute_count result_df)
  else if instr.intent == "UNIQUE_COUNT" then .uniqueOut (execute_unique_count result_df)
  else if instr.intent == "METRICS" then .metricsOut (execute_metrics result_df instr.filters)
  else if instr.intent == "TOP_K" then
    .topkOut (execute_top_k result_df instr.top_k instr.group_by)
  else .basic (execute_filter result_df)

end QueryExecutor

/-! ## `smart_query_engine.py` — `parse_limit` -/

namespace SmartQueryEngine

/-- Auxiliary: split off the leading run of word characters. -/
def splitWordRun : List Char → (List Char × List Char)
  | [] => ([], [])
  | c :: t =>
    if isWordChar c then
      let (run, rest) := splitWordRun t
      (c :: run, rest)
    else ([], c :: t)

/-- Fuel-indexed scanner for the word runs (structurally recursive on the
fuel, so that it evaluates inside the kernel; `fuel = l.length` always
suffices since every step consumes at least one character). -/
def wordRunsAux : Nat → List Char → List (List Char)
  | 0, _ => []
  | _, [] => []
  | fuel + 1, c :: t =>
    if isWordChar c then
      (c :: (splitWordRun t).1) :: wordRunsAux fuel (splitWordRun t).2
    else wordRunsAux fuel t

/-- The maximal word-character runs of a string, left to right.  A run
consisting solely of digits is exactly a match of `\b(\d+)\b`. -/
def wordRuns (l : List Char) : List (List Char) :=
  wordRunsAux l.length l

/-- `re.findall(r'\b(\d+)\b', query)` followed by `matches[0]`. -/
def first_int_token (query : String) : Option Nat :=
  (((wordRuns query.toList).filter (fun t => t.all Char.isDigit)).head?).map natOfDigits

/-- `parse_limit`. -/
def parse_limit (query : String) : Nat :=
  match (wordRuns query.toList).filter (fun t => t.all Char.isDigit) with
  | t :: _ =>
    let limit := natOfDigits t
    if 1 ≤ limit && limit ≤ 100 then limit else 10
  | [] => 10

end SmartQueryEngine

/-! ## `data_enrichment.py` — the enrichment layer

Timestamps are abstract integer days; `datetime.now()` is the explicit
parameter `now`; calendar rendering (`strftime`) is abstracted to the
integer-day rendering `toString` and weekday computation to `d % 7` (days
since a Monday epoch). -/

namespace DataEnrichment

/-- `normalize_date`: on abstract day-stamps normalization is the identity
(`None`/`NaN` stays `none`). -/
def normalize_date (d : Option Int) : Option Int := d

/-- `calculate_transit_days`. -/
def calculate_transit_days (shipped arrived : Option Int) : Option Int :=
  match shipped, arrived with
  | some s, some a => some (a - s)
  | _, _ => none

/-- `calculate_expected_transit_days`. -/
def calculate_expected_transit_days (shipped expected : Option Int) : Int :=
  match shipped, expected with
  | some s, some e => max 1 (e - s)
  | _, _ => 0

/-- `calculate_delay_days`: non-negative delay when arrived, `none`
otherwise. -/
def calculate_delay_days (expected arrived : Option Int) : Option Int :=
  match expected, arrived with
  | some e, some a => some (if 0 < a - e then a - e else 0)
  | _, _ => none

def arrivedStatuses : List String := ["ARRIVED", "DELIVERED", "COMPLETED"]

def transitStatuses : List String :=
  ["IN_TRANSIT", "IN TRANSIT", "SHIPPED", "DISPATCHED", "IN_PROGRESS"]

def transitStatusesShort : List String := ["IN_TRANSIT", "IN TRANSIT", "SHIPPED", "DISPATCHED"]

def pendingStatuses : List String := ["PENDING", "WAITING", "PROCESSING", "PREPARING"]

/-- `determine_status_label`. -/
def determine_status_label (raw_status : String) (delay_days : Option Int)
    (arrived expected : Option Int) (now : Int) : String :=
  let rsc := normUp raw_status
  if arrived.isSome && arrivedStatuses.contains rsc then
    match delay_days with
    | none => "Delivered On Time ✓"
    | some d => if d ≤ 0 then "Delivered On Time ✓"
        else "Delivered Late (by " ++ toString d ++ " days)"
  else if transitStatuses.contains rsc then
    match expected with
    | some e => if e < now then "⚠ In Transit & Overdue" else "In Transit"
    | none => "In Transit"
  else if pendingStatuses.contains rsc then "Pending Processing"
  else "Status: " ++ rsc

/-- `estimate_delay_reason`. -/
def estimate_delay_reason (_expected arrived : Option Int) (delay_days : Option Int)
    (source destination : String) : Option String :=
  match delay_days with
  | none => none
  | some d =>
    if d ≤ 0 then none
    else
      let reasons :=
        (if 10 < d then ["Extended delay detected"]
         else if 5 < d then ["Moderate delay"] else []) ++
        (if source ≠ "" && destination ≠ "" && source ≠ destination then
          ["Complex routing may have contributed"] else []) ++
        (match arrived with
         | some a => if 5 ≤ a.emod 7 then ["Possible weekend processing delays"] else []
         | none => [])
      if reasons.isEmpty then some "Delay reason unclear from data"
      else some (String.intercalate " | " reasons)

/-- `forecast_eta`. -/
def forecast_eta (expected arrived : Option Int) (raw_status : String) (now : Int) :
    Option String :=
  if arrived.isSome then none
  else
    match expected with
    | none => none
    | some e =>
      let rsc := normUp raw_status
      if !(transitStatusesShort.contains rsc) then none
      else if e < now then
        some ("Expected on " ++ toString e ++ " (" ++ toString (now - e) ++ " days overdue)")
      else
        let days_until := e - now
        if days_until == 0 then some ("Expected today: " ++ toString e)
        else if days_until == 1 then some ("Expected tomorrow: " ++ toString e)
        else some ("Expected in " ++ toString days_until ++ " days: " ++ toString e)

/-- The first additive block of `calculate_risk_score` (the not-arrived
weights). -/
def risk_base (expected arrived : Option Int) (now : Int) : ℚ :=
  match arrived with
  | some _ => 0
  | none =>
    match expected with
    | some e => if e < now then 7/10 else 2/10
    | none => 3/10

/-- The second additive block of `calculate_risk_score` (the delay-magnitude
bands; `delay_days and delay_days > 0` in Python). -/
def risk_delay_add (delay_days : Option Int) : ℚ :=
  match delay_days with
  | some d =>
    if 0 < d then (if 10 ≤ d then 5/10 else if 5 ≤ d then 3/10 else 1/10) else 0
  | none => 0

/-- `calculate_risk_score`: the additive heuristic, clamped at 1. -/
def calculate_risk_score (delay_days : Option Int) (expected arrived : Option Int)
    (now : Int) : ℚ :=
  min 1 (risk_base expected arrived now + risk_delay_add delay_days)

/-- `determine_shipment_health`. -/
def determine_shipment_health (risk_score : ℚ) (delay_days : Option Int)
    (raw_status : String) : String :=
  let rsc := normUp raw_status
  if arrivedStatuses.contains rsc then
    match delay_days with
    | none => "Excellent ✓"
    | some d => if d ≤ 0 then "Excellent ✓" else if d ≤ 3 then "Good" else "Late"
  else if transitStatusesShort.contains rsc then
    if 6/10 < risk_score then "At Risk ⚠"
    else if 3/10 < risk_score then "Caution"
    else "Good"
  else "In Progress"

/-- `create_status_interpretation`. -/
def create_status_interpretation (status_label : String) (delay_days : Option Int)
    (expected _actual : Option Int) (raw_status : String) (now : Int) : String :=
  let rsc := normUp raw_status
  if arrivedStatuses.contains rsc then
    match delay_days with
    | none => "✓ Shipment delivered on time and ready for pickup/use."
    | some d =>
      if d ≤ 0 then "✓ Shipment delivered on time and ready for pickup/use."
      else "⚠ Shipment delivered " ++ toString d ++
        " days late. You may want to review carrier performance."
  else if transitStatusesShort.contains rsc then
    match expected with
    | some e =>
      let days_until := e - now
      if 0 < days_until then
        "Your shipment is currently in transit and on schedule. Expected arrival in " ++
          toString days_until ++ " days."
      else
        "Your shipment is in transit but has exceeded the expected delivery date by " ++
          toString days_until.natAbs ++ " days. Please contact support if it hasn't arrived soon."
    | none => "Your shipment is actively moving through the supply chain."
  else if pendingStatuses.contains rsc then
    "Your shipment is being prepared and will be dispatched shortly."
  else "Current status: " ++ status_label ++ ". Please check tracking details."

/-- `create_timeline_summary` (`if transit_days:` tests Python truthiness,
so a zero-day transit is skipped). -/
def create_timeline_summary (shipped expected actual : Option Int)
    (transit_days : Option Int) (expected_transit_days : Int) : String :=
  let parts :=
    (match shipped with
     | some s => ["Shipped on " ++ toString s]
     | none => []) ++
    (match expected with
     | some e => ["Expected arrival " ++ toString e ++ " (" ++
         toString expected_transit_days ++ " days planned)"]
     | none => []) ++
    (match actual with
     | some a =>
       ["Actually arrived " ++ toString a] ++
         (match transit_days with
          | some t => if t ≠ 0 then ["(took " ++ toString t ++ " days)"] else []
          | none => [])
     | none => [])
  if parts.isEmpty then "Timeline information unavailable"
  else String.intercalate " → " parts

/-- `generate_recommendations`. -/
def generate_recommendations (status_label : String) (risk_score : ℚ)
    (delay_days : Option Int) (expected : Option Int) (raw_status : String)
    (now : Int) : List String :=
  let rsc := normUp raw_status
  let recs :=
    (match delay_days with
     | some d =>
       if 0 < d then
         ["Contact carrier to understand delay reasons"] ++
           (if 7 ≤ d then ["Consider filing a claim if delay impacts business"] else [])
       else []
     | none => []) ++
    (if ["IN_TRANSIT", "IN TRANSIT"].contains rsc then
      match expected with
      | some e =>
        if e < now then ["Follow up with logistics provider regarding delayed delivery"]
        else []
      | none => []
     else []) ++
    (if 6/10 < risk_score then
      ["Monitor shipment closely and prepare contingency plans"] else []) ++
    (if ["PENDING", "WAITING", "PROCESSING"].contains rsc then
      ["Check back soon for shipping updates"] else []) ++
    (if containsSub "on time".toList (lowerL status_label.toList) &&
        containsSub "delivered".toList (lowerL status_label.toList) then
      ["Schedule pickup or arrange delivery at your convenience"] else [])
  if recs.isEmpty then ["Continue tracking for status updates"] else recs

structure ShipmentSummary where
  shipment_id : String
  sku : String
  quantity : Int
  source : String
  destination : String
  route : String
  shipped_date : Option Int
  expected_arrival : Option Int
  actual_arrival : Option Int
  status_label : String
  transit_days : Option Int
  expected_transit_days : Int
  delay_days : Option Int
  risk_score : ℚ
  shipment_health : String
  estimated_delay_reason : Option String
  eta_forecast : Option String
  status_interpretation : String
  timeline_summary : String
  recommendations : List String
  raw_status : String
  deriving Repr, DecidableEq

/-- `enrich_shipment`. -/
def enrich_shipment (row : Row) (now : Int) : ShipmentSummary :=
  let shipment_id := String.mk (stripL row.shipment_id.toList)
  let sku := String.mk (stripL row.sku.toList)
  let source := String.mk (stripL row.source_location.toList)
  let destination := String.mk (stripL row.destination_location.toList)
  let route := source ++ " → " ++ destination
  let raw_status := String.mk (stripL row.status.toList)
  let shipped_date := normalize_date row.departed_at
  let expected_arrival := normalize_date row.expected_arrival
  let actual_arrival := normalize_date row.arrived_at
  let transit_days := calculate_transit_days shipped_date actual_arrival
  let expected_transit_days := calculate_expected_transit_days shipped_date expected_arrival
  let delay_days := calculate_delay_days expected_arrival actual_arrival
  let status_label := determine_status_label raw_status delay_days actual_arrival
    expected_arrival now
  let delay_reason := estimate_delay_reason expected_arrival actual_arrival delay_days
    source destination
  let eta_forecast := forecast_eta expected_arrival actual_arrival raw_status now
  let risk_score := calculate_risk_score delay_days expected_arrival actual_arrival now
  let shipment_health := determine_shipment_health risk_score delay_days raw_status
  let status_interpretation := create_status_interpretation status_label delay_days
    expected_arrival actual_arrival raw_status now
  let timeline_summary := create_timeline_summary shipped_date expected_arrival
    actual_arrival transit_days expected_transit_days
  let recommendations := generate_recommendations status_label risk_score delay_days
    expected_arrival raw_status now
  { shipment_id := shipment_id
    sku := sku
    quantity := row.quantity
    source := source
    destination := destination
    route := route
    shipped_date := shipped_date
    expected_arrival := expected_arrival
    actual_arrival := actual_arrival
    status_label := status_label
    transit_days := transit_days
    expected_transit_days := expected_transit_days
    delay_days := delay_days
    risk_score := round2 risk_score
    shipment_health := shipment_health
    estimated_delay_reason := delay_reason
    eta_forecast := eta_forecast
    status_interpretation := status_interpretation
    timeline_summary := timeline_summary
    recommendations := recommendations
    raw_status := raw_status }

end DataEnrichment

/-! ## `query_engine.py` — `get_shipment_details` and the mutable cache -/

namespace QueryEngine

open DataEnrichment

/-- The `result` JSON of a successful `get_shipment_details`. -/
structure DetailsResObj where
  shipment_id : String
  sku : String
  quantity : Int
  status : String
  health : String
  risk_score : ℚ
  deriving Repr, DecidableEq

/-- The single `data` record of a successful `get_shipment_details`. -/
structure DetailRecord where
  shipment_id : String
  sku : String
  quantity : Int
  route : String
  status : String
  status_interpretation : String
  shipped_date : Option Int
  expected_arrival : Option Int
  actual_arrival : Option Int
  transit_days : Option Int
  delay_days : Option Int
  health : String
  risk_score : ℚ
  timeline_summary : String
  eta_forecast : Option String
  recommendations : List String
  deriving Repr, DecidableEq

def details_result_obj (e : ShipmentSummary) : DetailsResObj :=
  ⟨e.shipment_id, e.sku, e.quantity, e.status_label, e.shipment_health, e.risk_score⟩

def detail_record (e : ShipmentSummary) : DetailRecord :=
  ⟨e.shipment_id, e.sku, e.quantity, e.route, e.status_label, e.status_interpretation,
   e.shipped_date, e.expected_arrival, e.actual_arrival, e.transit_days, e.delay_days,
   e.shipment_health, e.risk_score, e.timeline_summary, e.eta_forecast,
   e.recommendations⟩

structure ShipmentDetailsResult where
  query_type : String
  result : Option DetailsResObj
  data : Option (List DetailRecord)
  summary : String
  error : Option String
  deriving Repr, DecidableEq

/-- `get_shipment_details`: case-insensitive id match, not-found error when no
row matches, otherwise the first match enriched. -/
def get_shipment_details (df : List Row) (shipment_id : String) (now : Int) :
    ShipmentDetailsResult :=
  if df.isEmpty then
    ⟨"shipment_details", none, none, "No data available", some "No data available"⟩
  else
    match df.filter (fun r => normUp r.shipment_id == normUp shipment_id) with
    | [] =>
      ⟨"shipment_details", none, none,
        "No shipment found with ID: " ++ shipment_id,
        some ("Shipment " ++ shipment_id ++ " not found")⟩
    | r :: _ =>
      let enriched := enrich_shipment r now
      ⟨"shipment_details", some (details_result_obj enriched),
        some [detail_record enriched],
        "Shipment " ++ enriched.shipment_id ++ ": " ++ enriched.status_label, none⟩

/-! The cached DataFrame of `query_engine.py` is a mutable module-level
object; `get_top_routes` runs `df['route'] = df['source_location'] + ' -> ' +
df['destination_location']` on it, which adds a column to the cached table in
place.  The cache is modelled as an association-list table threaded through
the call. -/

/-- A pandas DataFrame as a list of rows, each an ordered association of
column name to cell text. -/
abbrev Table := List (List (String × String))

def colOf (r : List (String × String)) (c : String) : String :=
  ((r.find? (fun kv => kv.1 == c)).map (·.2)).getD ""

/-- Column assignment `df[k] = v`: overwrite the column if present, append it
otherwise. -/
def setCell (r : List (String × String)) (k v : String) : List (String × String) :=
  if r.any (fun kv => kv.1 == k) then
    r.map (fun kv => if kv.1 == k then (k, v) else kv)
  else r ++ [(k, v)]

structure TopRoutesResult where
  total_routes : Nat
  data : List (String × Nat)
  summary : String
  deriving Repr, DecidableEq

/-- `get_top_routes`: the returned pair is (the `QueryResult`, the cached
table AFTER the call).  The route-column assignment happens on the cached
frame itself. -/
def get_top_routes (limit : Nat) (df : Table) : TopRoutesResult × Table :=
  let df2 := df.map (fun r =>
    setCell r "route" (colOf r "source_location" ++ " -> " ++ colOf r "destination_location"))
  let routes := df2.map (fun r => colOf r "route")
  let keys := sortWith (fun a b => decide (a ≤ b)) (uniqueFirst routes)
  let route_counts := keys.map (fun k => (k, routes.countP (fun x => x == k)))
  let sorted := sortWith (fun a b => b.2 ≤ a.2) route_counts
  (⟨route_counts.length, sorted.take limit,
    "Top " ++ toString limit ++ " routes by shipment count"⟩, df2)

end QueryEngine

/-! ## Specification-side definitions and fixture data -/

/-- C5's risk table, transcribed from the specification's words: 0.7 for
overdue-and-not-arrived, 0.2 for not-arrived-not-yet-due, plus +0.5 for a
delay of at least 10 days, +0.3 for at least 5, +0.1 for any other positive
delay, clamped at 1.  (`e` is the expected arrival, which the claim assumes
present.) -/
def risk_score_claim (arrived : Option Int) (e now : Int) (delay_days : Option Int) : ℚ :=
  min 1 ((if arrived.isNone then (if e < now then 7/10 else 2/10) else 0) +
    (match delay_days with
     | some d => if 10 ≤ d then 5/10 else if 5 ≤ d then 3/10 else if 0 < d then 1/10 else 0
     | none => 0))

/-- Fixture: an ARRIVED shipment that was 12 days late. -/
def rowLate : Row :=
  ⟨"SHP-0000001", "SKU-1", 10, "IN-DEL", "US-LAX", "ARRIVED", some 0, some 10, some 22⟩

/-- Fixture: an ARRIVED shipment that was 2 days early. -/
def rowOnTime : Row :=
  ⟨"SHP-0000002", "SKU-2", 5, "IN-DEL", "UK-LON", "ARRIVED", some 0, some 10, some 8⟩

/-- Fixture: a shipment still in transit (no arrival timestamp). -/
def rowTransit : Row :=
  ⟨"SHP-0000003", "SKU-1", 7, "CN-SHZ", "US-LAX", "IN_TRANSIT", some 0, some 30, none⟩

/-! ## Helper lemmas -/

theorem mem_stripNone {l : List (String × Option String)} {k : String} {v : String} :
    (k, v) ∈ stripNone l ↔ (k, some v) ∈ l := by
  induction l with
  | nil => simp [stripNone]
  | cons kv t ih =>
    obtain ⟨k', o⟩ := kv
    cases o with
    | some v' => simp [stripNone, ih]
    | none => simp [stripNone, ih]

theorem detect_operation_mem (t : List Char) :
    QueryPlanner.detect_operation t ∈ QueryPlanner.VALID_OPERATIONS := by
  unfold QueryPlanner.detect_operation
  split_ifs <;> decide

theorem round2_of_tenths (n : ℤ) : round2 ((n : ℚ) / 10) = (n : ℚ) / 10 := by
  unfold round2
  have h : ((n : ℚ) / 10) * 100 = ((n * 10 : ℤ) : ℚ) := by push_cast; ring
  rw [h, round_intCast]
  push_cast; ring

theorem abs_round2_sub (x : ℚ) : |round2 x - x| ≤ 1 / 200 := by
  unfold round2
  have h : |x * 100 - round (x * 100)| ≤ 1 / 2 := abs_sub_round (x * 100)
  have h2 : ((round (x * 100) : ℤ) : ℚ) / 100 - x =
      (((round (x * 100) : ℤ) : ℚ) - x * 100) / 100 := by ring
  rw [h2, abs_div, abs_of_pos (by norm_num : (0 : ℚ) < 100)]
  rw [div_le_iff₀ (by norm_num : (0 : ℚ) < 100)]
  rw [abs_sub_comm] at h
  linarith

theorem setSourceIfValid_dest (r : QueryPlanner.LocPair) (tok : String) :
    (QueryPlanner.setSourceIfValid r tok).dest = r.dest := by
  unfold QueryPlanner.setSourceIfValid
  split <;> first | rfl | (split <;> rfl)

theorem setDestIfValid_source (r : QueryPlanner.LocPair) (tok : String) :
    (QueryPlanner.setDestIfValid r tok).source = r.source := by
  unfold QueryPlanner.setDestIfValid
  split <;> first | rfl | (split <;> rfl)

theorem setSourceIfValid_source_valid (r : QueryPlanner.LocPair) (tok : String)
    (h : ∀ v, r.source = some v → v ∈ QueryPlanner.valid_locations) :
    ∀ v, (QueryPlanner.setSourceIfValid r tok).source = some v →
      v ∈ QueryPlanner.valid_locations := by
  intro v hv
  unfold QueryPlanner.setSourceIfValid at hv
  split at hv
  · split at hv
    · simp at hv
      subst hv
      next heq hc => exact List.mem_of_elem_eq_true hc
    · exact h v hv
  · exact h v hv

theorem setDestIfValid_dest_valid (r : QueryPlanner.LocPair) (tok : String)
    (h : ∀ v, r.dest = some v → v ∈ QueryPlanner.valid_locations) :
    ∀ v, (QueryPlanner.setDestIfValid r tok).dest = some v →
      v ∈ QueryPlanner.valid_locations := by
  intro v hv
  unfold QueryPlanner.setDestIfValid at hv
  split at hv
  · split at hv
    · simp at hv
      subst hv
      next heq hc => exact List.mem_of_elem_eq_true hc
    · exact h v hv
  · exact h v hv

theorem fillFullStep_valid (r : QueryPlanner.LocPair) (loc : String)
    (hs : ∀ v, r.source = some v → v ∈ QueryPlanner.valid_locations)
    (hd : ∀ v, r.dest = some v → v ∈ QueryPlanner.valid_locations) :
    (∀ v, (QueryPlanner.fillFullStep r loc).source = some v →
        v ∈ QueryPlanner.valid_locations) ∧
    (∀ v, (QueryPlanner.fillFullStep r loc).dest = some v →
        v ∈ QueryPlanner.valid_locations) := by
  unfold QueryPlanner.fillFullStep
  split
  · exact ⟨hs, hd⟩
  next m heq =>
    split_ifs with h1 h2 h3
    · refine ⟨hs, ?_⟩
      intro v hv
      simp at hv
      subst hv
      exact List.mem_of_elem_eq_true h1
    · refine ⟨?_, hd⟩
      intro v hv
      simp at hv
      subst hv
      exact List.mem_of_elem_eq_true h1
    · exact ⟨hs, hd⟩
    · exact ⟨hs, hd⟩

theorem fillFull_valid (codes : List String) (r : QueryPlanner.LocPair)
    (hs : ∀ v, r.source = some v → v ∈ QueryPlanner.valid_locations)
    (hd : ∀ v, r.dest = some v → v ∈ QueryPlanner.valid_locations) :
    (∀ v, (codes.foldl QueryPlanner.fillFullStep r).source = some v →
        v ∈ QueryPlanner.valid_locations) ∧
    (∀ v, (codes.foldl QueryPlanner.fillFullStep r).dest = some v →
        v ∈ QueryPlanner.valid_locations) := by
  induction codes generalizing r with
  | nil => exact ⟨hs, hd⟩
  | cons c t ih =>
    obtain ⟨hs', hd'⟩ := fillFullStep_valid r c hs hd
    exact ih _ hs' hd'

theorem applyToMatch_valid (text : List Char) (r : QueryPlanner.LocPair)
    (hs : ∀ v, r.source = some v → v ∈ QueryPlanner.valid_locations)
    (hd : ∀ v, r.dest = some v → v ∈ QueryPlanner.valid_locations) :
    (∀ v, (QueryPlanner.applyToMatch text r).source = some v →
        v ∈ QueryPlanner.valid_locations) ∧
    (∀ v, (QueryPlanner.applyToMatch text r).dest = some v →
        v ∈ QueryPlanner.valid_locations) := by
  unfold QueryPlanner.applyToMatch
  split
  · split
    · refine ⟨?_, setDestIfValid_dest_valid _ _ hd⟩
      intro v hv
      rw [setDestIfValid_source] at hv
      exact hs v hv
    · exact ⟨hs, hd⟩
  · exact ⟨hs, hd⟩

theorem applyFromMatch_valid (text : List Char) (r : QueryPlanner.LocPair)
    (hs : ∀ v, r.source = some v → v ∈ QueryPlanner.valid_locations)
    (hd : ∀ v, r.dest = some v → v ∈ QueryPlanner.valid_locations) :
    (∀ v, (QueryPlanner.applyFromMatch text r).source = some v →
        v ∈ QueryPlanner.valid_locations) ∧
    (∀ v, (QueryPlanner.applyFromMatch text r).dest = some v →
        v ∈ QueryPlanner.valid_locations) := by
  unfold QueryPlanner.applyFromMatch
  split
  · split
    · refine ⟨setSourceIfValid_source_valid _ _ hs, ?_⟩
      intro v hv
      rw [setSourceIfValid_dest] at hv
      exact hd v hv
    · exact ⟨hs, hd⟩
  · exact ⟨hs, hd⟩

theorem extract_locations_valid (text : List Char) :
    (∀ v, (QueryPlanner.extract_locations text).source = some v →
        v ∈ QueryPlanner.valid_locations) ∧
    (∀ v, (QueryPlanner.extract_locations text).dest = some v →
        v ∈ QueryPlanner.valid_locations) := by
  unfold QueryPlanner.extract_locations
  obtain ⟨hs0, hd0⟩ := fillFull_valid (findFullCodes text) ⟨none, none⟩
    (by intro v hv; simp at hv) (by intro v hv; simp at hv)
  split
  · constructor
    · intro v hv
      rw [setDestIfValid_source] at hv
      exact setSourceIfValid_source_valid _ _ hs0 v hv
    · intro v hv
      refine setDestIfValid_dest_valid _ _ ?_ v hv
      intro w hw
      rw [setSourceIfValid_dest] at hw
      exact hd0 w hw
  · obtain ⟨hs1, hd1⟩ := applyToMatch_valid text _ hs0 hd0
    exact applyFromMatch_valid text _ hs1 hd1

theorem count_split (rows : List Row)
    (h : ∀ r ∈ rows, r.status = "ARRIVED" →
      r.arrived_at.isSome ∧ r.expected_arrival.isSome) :
    HybridPipeline.onTimeCount rows + HybridPipeline.delayedCount rows =
      HybridPipeline.arrivedCount rows := by
  induction rows with
  | nil => simp [HybridPipeline.onTimeCount, HybridPipeline.delayedCount,
      HybridPipeline.arrivedCount]
  | cons r t ih =>
    have ht : ∀ x ∈ t, x.status = "ARRIVED" →
        x.arrived_at.isSome ∧ x.expected_arrival.isSome :=
      fun x hx => h x (List.mem_cons_of_mem r hx)
    have iht := ih ht
    simp only [HybridPipeline.onTimeCount, HybridPipeline.delayedCount,
      HybridPipeline.arrivedCount, List.countP_cons] at iht ⊢
    by_cases hs : r.status = "ARRIVED"
    · obtain ⟨ha, he⟩ := h r (List.mem_cons_self r t) hs
      obtain ⟨a, ha'⟩ := Option.isSome_iff_exists.mp ha
      obtain ⟨e, he'⟩ := Option.isSome_iff_exists.mp he
      have hsb : (r.status == "ARRIVED") = true := by simp [hs]
      by_cases hle : a ≤ e
      · have h1 : leOpt r.arrived_at r.expected_arrival = true := by
          rw [ha', he']; simp [leOpt]; omega
        have h2 : gtOpt r.arrived_at r.expected_arrival = false := by
          rw [ha', he']; simp [gtOpt]; omega
        simp [hsb, h1, h2]
        omega
      · have h1 : leOpt r.arrived_at r.expected_arrival = false := by
          rw [ha', he']; simp [leOpt]; omega
        have h2 : gtOpt r.arrived_at r.expected_arrival = true := by
          rw [ha', he']; simp [gtOpt]; omega
        simp [hsb, h1, h2]
        omega
    · have hsb : (r.status == "ARRIVED") = false := by
        simpa using hs
      simp [hsb]
      omega

theorem round2_zero : round2 0 = 0 := by
  unfold round2
  norm_num

/-! ## Claim theorems -/

/-- C1 (amended): over any filtered METRICS row set whose ARRIVED rows carry
both timestamps, `on_time_rate` is the percentage of on-time rows among
ARRIVED rows rounded to two decimals, `delay_rate` the percentage of late
rows among ARRIVED rows, the two counts partition the ARRIVED rows so the
rates sum to 100 up to rounding (within 0.01) whenever the arrived count is
positive, and both rates are 0 when the arrived count is zero.  The pipeline
marks the result invalid (no data) exactly when the filtered row set is
empty — not when merely the arrived count is zero, which is what the original
claim asserted (see the counterexample). -/
theorem c1_metrics_rates (rows : List Row)
    (h : ∀ r ∈ rows, r.status = "ARRIVED" →
      r.arrived_at.isSome ∧ r.expected_arrival.isSome) :
    (0 < HybridPipeline.arrivedCount rows →
        (HybridPipeline.compute_metrics rows).on_time_rate =
          round2 ((HybridPipeline.onTimeCount rows : ℚ) /
            (HybridPipeline.arrivedCount rows : ℚ) * 100)
      ∧ (HybridPipeline.compute_metrics rows).delay_rate =
          round2 ((HybridPipeline.delayedCount rows : ℚ) /
            (HybridPipeline.arrivedCount rows : ℚ) * 100)
      ∧ HybridPipeline.onTimeCount rows + HybridPipeline.delayedCount rows =
          HybridPipeline.arrivedCount rows
      ∧ |(HybridPipeline.compute_metrics rows).on_time_rate +
          (HybridPipeline.compute_metrics rows).delay_rate - 100| ≤ 1 / 100)
  ∧ (HybridPipeline.arrivedCount rows = 0 →
      (HybridPipeline.compute_metrics rows).on_time_rate = 0
      ∧ (HybridPipeline.compute_metrics rows).delay_rate = 0)
  ∧ (∀ plan : QueryPlanner.QueryPlan, plan.operation = "METRICS" →
      ((HybridPipeline.validate_results plan
          (.metricsR (HybridPipeline.compute_metrics rows))).is_valid = true ↔
        rows ≠ [])) := by
  have hon : (HybridPipeline.compute_metrics rows).on_time_rate =
      round2 (if HybridPipeline.arrivedCount rows > 0 then
        (HybridPipeline.onTimeCount rows : ℚ) /
          (HybridPipeline.arrivedCount rows : ℚ) * 100 else 0) := rfl
  have hde : (HybridPipeline.compute_metrics rows).delay_rate =
      round2 (if HybridPipeline.arrivedCount rows > 0 then
        (HybridPipeline.delayedCount rows : ℚ) /
          (HybridPipeline.arrivedCount rows : ℚ) * 100 else 0) := rfl
  refine ⟨?_, ?_, ?_⟩
  · intro h0
    have hsplit := count_split rows h
    have e1 : (HybridPipeline.compute_metrics rows).on_time_rate =
        round2 ((HybridPipeline.onTimeCount rows : ℚ) /
          (HybridPipeline.arrivedCount rows : ℚ) * 100) := by
      rw [hon, if_pos h0]
    have e2 : (HybridPipeline.compute_metrics rows).delay_rate =
        round2 ((HybridPipeline.delayedCount rows : ℚ) /
          (HybridPipeline.arrivedCount rows : ℚ) * 100) := by
      rw [hde, if_pos h0]
    refine ⟨e1, e2, hsplit, ?_⟩
    have hane : ((HybridPipeline.arrivedCount rows : ℚ)) ≠ 0 := by
      exact_mod_cast Nat.pos_iff_ne_zero.mp h0
    have hnd : (HybridPipeline.onTimeCount rows : ℚ) +
        (HybridPipeline.delayedCount rows : ℚ) =
        (HybridPipeline.arrivedCount rows : ℚ) := by
      exact_mod_cast hsplit
    set x : ℚ := (HybridPipeline.onTimeCount rows : ℚ) /
      (HybridPipeline.arrivedCount rows : ℚ) * 100 with hx
    set y : ℚ := (HybridPipeline.delayedCount rows : ℚ) /
      (HybridPipeline.arrivedCount rows : ℚ) * 100 with hy
    have hxy : x + y = 100 := by
      rw [hx, hy]
      field_simp
      linarith [hnd]
    have heq : (HybridPipeline.compute_metrics rows).on_time_rate +
        (HybridPipeline.compute_metrics rows).delay_rate - 100 =
        (round2 x - x) + (round2 y - y) := by
      rw [e1, e2]
      linarith [hxy]
    rw [heq]
    calc |(round2 x - x) + (round2 y - y)| ≤ |round2 x - x| + |round2 y - y| :=
          abs_add _ _
      _ ≤ 1 / 200 + 1 / 200 := add_le_add (abs_round2_sub x) (abs_round2_sub y)
      _ ≤ 1 / 100 := by norm_num
  · intro h0
    constructor
    · rw [hon, h0]
      simpa using round2_zero
    · rw [hde, h0]
      simpa using round2_zero
  · intro plan hop
    cases rows with
    | nil =>
      simp [HybridPipeline.validate_results, HybridPipeline.ResultData.count,
        HybridPipeline.compute_metrics]
    | cons r t =>
      have hc : (HybridPipeline.ResultData.metricsR
          (HybridPipeline.compute_metrics (r :: t))).count = t.length + 1 := rfl
      simp [HybridPipeline.validate_results, hc, hop,
        HybridPipeline.ResultData.opName, HybridPipeline.ResultData.recordsOf]

/-- C1 counterexample: a one-row dataset whose only shipment is IN_TRANSIT.
The arrived count is 0 and both rates are 0, yet the pipeline's validation
marks the METRICS result VALID (because the filtered set is non-empty), so
the response asserts the 0% rates instead of being flagged as no-data, which
falsifies the claim's final conjunct. -/
theorem c1_counterexample :
    HybridPipeline.arrivedCount [rowTransit] = 0
  ∧ (HybridPipeline.compute_metrics [rowTransit]).on_time_rate = 0
  ∧ (HybridPipeline.compute_metrics [rowTransit]).delay_rate = 0
  ∧ (HybridPipeline.validate_results
      { operation := "METRICS", filters := [], fields := [], limit := none,
        sort_by := none, invalid_location_mentioned := false }
      (.metricsR (HybridPipeline.compute_metrics [rowTransit]))).is_valid = true := by
  have h0 : HybridPipeline.arrivedCount [rowTransit] = 0 := by decide
  refine ⟨h0, ?_, ?_, by decide⟩
  · simp [HybridPipeline.compute_metrics, h0, round2_zero]
  · simp [HybridPipeline.compute_metrics, h0, round2_zero]

/-- C1 witness: on a dataset with one on-time and one late arrived shipment
the two rates sum to 100 within the rounding tolerance. -/
theorem c1_witness :
    |(HybridPipeline.compute_metrics [rowOnTime, rowLate]).on_time_rate +
      (HybridPipeline.compute_metrics [rowOnTime, rowLate]).delay_rate - 100| ≤ 1 / 100 :=
  ((c1_metrics_rates [rowOnTime, rowLate] (by decide)).1 (by decide)).2.2.2

/-- C2 (amended): whenever the planner sets `invalid_location_mentioned` —
which happens exactly when the question contains a `to `/`from ` preposition
followed by a token and neither a source nor a destination location resolved —
the pipeline returns the fixed "No data found." result without consulting the
dataset (the result is a constant in `df`); and the cited example
"shipments to ZZ-ZZZ" does set the flag.  The flag is NOT set for every
question mentioning an unresolvable location-like token: see the
counterexample. -/
theorem c2_invalid_location_short_circuit :
    (∀ (df : List Row) (q : String),
        (QueryPlanner.plan_query q).invalid_location_mentioned = true →
        HybridPipeline.execute df q =
          some ⟨"No data found.", (QueryPlanner.plan_query q).operation, 0, true,
            "hybrid_pipeline", none⟩)
  ∧ (QueryPlanner.plan_query "shipments to ZZ-ZZZ").invalid_location_mentioned = true := by
  constructor
  · intro df q h
    simp [HybridPipeline.execute, h]
  · decide

/-- C2 counterexample: "shipments near zz-zzz" mentions the location-like
token `zz-zzz` (it matches the lexicon's own full-code pattern) which
resolves to no known location, yet the plan does NOT carry the invalid flag,
and the pipeline runs a full-table LIST query answering "Found 1 shipments."
on a one-row dataset — falsifying the claim's universal quantification. -/
theorem c2_counterexample :
    "zz-zzz" ∈ findFullCodes (lowerStrip "shipments near zz-zzz")
  ∧ QueryPlanner.locations_map.lookup "zz-zzz" = none
  ∧ (QueryPlanner.plan_query "shipments near zz-zzz").invalid_location_mentioned = false
  ∧ (HybridPipeline.execute [rowLate] "shipments near zz-zzz").map
      (fun r => r.response) = some "Found 1 shipments." := by
  refine ⟨by decide, by decide, by decide, by decide⟩

/-- C2 witness: the short-circuit theorem applied at the cited example on the
empty dataset. -/
theorem c2_witness :
    HybridPipeline.execute [] "shipments to ZZ-ZZZ" =
      some ⟨"No data found.", (QueryPlanner.plan_query "shipments to ZZ-ZZZ").operation,
        0, true, "hybrid_pipeline", none⟩ :=
  c2_invalid_location_short_circuit.1 [] "shipments to ZZ-ZZZ"
    c2_invalid_location_short_circuit.2

/-- C3 (amended): shipment-id detection has the highest precedence in
`QueryParser._detect_intent` — any question whose lowered text contains
`shp-` (in particular any full `SHP-` + 7 digits pattern) is classified
DETAILS there regardless of other keywords; in
`QueryPlanner._detect_operation`, however, the ANALYTICS keyword rule is
checked first, so the planner classifies DETAILS only when no ANALYTICS
keyword is present (see the counterexample). -/
theorem c3_shipment_id_precedence :
    (∀ q : String, containsSub "shp-".toList (lowerStrip q) = true →
        QueryParsing.detect_intent (lowerStrip q) = "DETAILS")
  ∧ (∀ q : String, containsSub "shp-".toList (lowerStrip q) = true →
      containsAny (lowerStrip q) ["problematic", "most delays", "worst", "best",
        "top", "bottom", "analysis", "insights", "trending", "critical"] = false →
        QueryPlanner.detect_operation (lowerStrip q) = "DETAILS") := by
  constructor
  · intro q h
    have h' : containsSub ([ 's', 'h', 'p', '-']) (lowerStrip q) = true := by
      simpa using h
    simp [QueryParsing.detect_intent, h']
  · intro q h1 h2
    have h1' : containsSub ([ 's', 'h', 'p', '-']) (lowerStrip q) = true := by
      simpa using h1
    simp [QueryPlanner.detect_operation, h1', h2]

/-- C3 counterexample: "top shp-0000017" contains a full shipment-id pattern,
yet the planner classifies it ANALYTICS (the ANALYTICS keyword rule `top`
fires before the shipment-id rule), not DETAILS as claimed. -/
theorem c3_counterexample :
    (scanFor isShpAt (lowerStrip "top shp-0000017")).isSome = true
  ∧ (QueryPlanner.plan_query "top shp-0000017").operation = "ANALYTICS"
  ∧ (QueryPlanner.plan_query "top shp-0000017").operation ≠ "DETAILS" := by
  refine ⟨by decide, by decide, by decide⟩

/-- C3 witness: the bare question "SHP-0000017" is classified DETAILS by both
classifiers. -/
theorem c3_witness :
    QueryParsing.detect_intent (lowerStrip "SHP-0000017") = "DETAILS"
  ∧ QueryPlanner.detect_operation (lowerStrip "SHP-0000017") = "DETAILS" :=
  ⟨c3_shipment_id_precedence.1 "SHP-0000017" (by decide),
   c3_shipment_id_precedence.2 "SHP-0000017" (by decide) (by decide)⟩

/-- C4 (amended): `QueryPlanner._detect_operation` is total and always yields
one of the eight valid operations (defaulting to LIST), so the planner-side
classifier never fails; `intent_detector.detect_intent`, however, returns no
intent (`None`) when no phrase rule matches — its callers in
`copilot_backend.py` then substitute the low-confidence `summary_stats`
fallback intent, so a structured intent is always produced at the call sites
(the fallback is `summary_stats`, not a LIST/FILTER intent as the claim
stated; see the counterexample). -/
theorem c4_intent_totality (q : String) :
    QueryPlanner.detect_operation (lowerStrip q) ∈ QueryPlanner.VALID_OPERATIONS
  ∧ (IntentDetector.detect_intent q = none →
      IntentDetector.detect_intent_with_fallback q =
        ⟨"summary_stats", [], 10, 1/2⟩) := by
  refine ⟨detect_operation_mem _, ?_⟩
  intro h
  simp [IntentDetector.detect_intent_with_fallback, h]

/-- C4 counterexample: on the empty question `detect_intent` returns no
intent at all, falsifying "never ... returns no intent" for the classifier
itself. -/
theorem c4_counterexample : IntentDetector.detect_intent "" = none := by decide

/-- C4 witness: the totality theorem applied at the empty question. -/
theorem c4_witness :
    IntentDetector.detect_intent_with_fallback "" =
      ⟨"summary_stats", [], 10, 1/2⟩ :=
  (c4_intent_totality "").2 (by decide)

theorem round2_eq_self {q : ℚ} (n : ℤ) (h : q * 100 = (n : ℚ)) : round2 q = q := by
  unfold round2
  rw [h, round_intCast]
  have hq : q = (n : ℚ) / 100 := by
    field_simp at h ⊢
    linarith [h]
  rw [hq]

theorem round2_min_one {q : ℚ} (n : ℤ) (h : q * 100 = (n : ℚ)) :
    round2 (min 1 q) = min 1 q := by
  rcases le_total 1 q with h1 | h1
  · rw [min_eq_left h1]
    exact round2_eq_self 100 (by norm_num)
  · rw [min_eq_right h1]
    exact round2_eq_self n h

theorem risk_base_cases (expected arrived : Option Int) (now : Int) :
    DataEnrichment.risk_base expected arrived now = 0 ∨
    DataEnrichment.risk_base expected arrived now = 7/10 ∨
    DataEnrichment.risk_base expected arrived now = 2/10 ∨
    DataEnrichment.risk_base expected arrived now = 3/10 := by
  unfold DataEnrichment.risk_base
  cases arrived with
  | some a => left; rfl
  | none =>
    cases expected with
    | none => right; right; right; rfl
    | some e =>
      by_cases h : e < now
      · right; left; simp [h]
      · right; right; left; simp [h]

theorem risk_delay_add_cases (dd : Option Int) :
    DataEnrichment.risk_delay_add dd = 0 ∨
    DataEnrichment.risk_delay_add dd = 5/10 ∨
    DataEnrichment.risk_delay_add dd = 3/10 ∨
    DataEnrichment.risk_delay_add dd = 1/10 := by
  unfold DataEnrichment.risk_delay_add
  cases dd with
  | none => left; rfl
  | some d =>
    by_cases h0 : 0 < d
    · by_cases h10 : 10 ≤ d
      · right; left; simp [h0, h10]
      · by_cases h5 : 5 ≤ d
        · right; right; left; simp [h0, h10, h5]
        · right; right; right; simp [h0, h10, h5]
    · left; simp [h0]

theorem risk_value_props (dd arr expected : Option Int) (now : Int) :
    round2 (DataEnrichment.calculate_risk_score dd expected arr now) =
      DataEnrichment.calculate_risk_score dd expected arr now
  ∧ 0 ≤ DataEnrichment.calculate_risk_score dd expected arr now
  ∧ DataEnrichment.calculate_risk_score dd expected arr now ≤ 1 := by
  unfold DataEnrichment.calculate_risk_score
  rcases risk_base_cases expected arr now with hb | hb | hb | hb <;>
    rcases risk_delay_add_cases dd with hd | hd | hd | hd <;>
    rw [hb, hd]
  all_goals refine ⟨?_, ?_, min_le_left 1 _⟩
  all_goals first
    | ((apply le_min <;> norm_num); done)
    | ((apply round2_min_one 0 <;> norm_num); done)
    | ((apply round2_min_one 10 <;> norm_num); done)
    | ((apply round2_min_one 20 <;> norm_num); done)
    | ((apply round2_min_one 30 <;> norm_num); done)
    | ((apply round2_min_one 40 <;> norm_num); done)
    | ((apply round2_min_one 50 <;> norm_num); done)
    | ((apply round2_min_one 60 <;> norm_num); done)
    | ((apply round2_min_one 70 <;> norm_num); done)
    | ((apply round2_min_one 80 <;> norm_num); done)
    | ((apply round2_min_one 90 <;> norm_num); done)
    | ((apply round2_min_one 100 <;> norm_num); done)
    | ((apply round2_min_one 110 <;> norm_num); done)
    | ((apply round2_min_one 120 <;> norm_num); done)

theorem risk_code_eq_claim (arr : Option Int) (e now : Int) :
    DataEnrichment.calculate_risk_score
      (DataEnrichment.calculate_delay_days (some e) arr) (some e) arr now =
    risk_score_claim arr e now (DataEnrichment.calculate_delay_days (some e) arr) := by
  unfold DataEnrichment.calculate_risk_score risk_score_claim
    DataEnrichment.calculate_delay_days DataEnrichment.risk_base
    DataEnrichment.risk_delay_add
  cases arr with
  | none => simp
  | some a =>
    dsimp only
    split_ifs <;> first | rfl | omega | (norm_num; done) | (simp_all; done)

/-- C5: for a shipment row with `departed_at` and `expected_arrival` present,
the enriched `risk_score` equals the claim's fixed additive table — 0.7 when
not arrived and already past due, 0.2 when not arrived and not yet due, plus
the delay band (+0.5 for ≥ 10 days, +0.3 for ≥ 5, +0.1 for any other
positive delay) — clamped at 1, and it always lies in [0, 1]. -/
theorem c5_risk_score (row : Row) (now e : Int)
    (hexp : row.expected_arrival = some e) (_hdep : row.departed_at.isSome = true) :
    (DataEnrichment.enrich_shipment row now).risk_score =
      risk_score_claim row.arrived_at e now
        (DataEnrichment.calculate_delay_days row.expected_arrival row.arrived_at)
  ∧ 0 ≤ (DataEnrichment.enrich_shipment row now).risk_score
  ∧ (DataEnrichment.enrich_shipment row now).risk_score ≤ 1 := by
  have hrs : (DataEnrichment.enrich_shipment row now).risk_score =
      round2 (DataEnrichment.calculate_risk_score
        (DataEnrichment.calculate_delay_days row.expected_arrival row.arrived_at)
        row.expected_arrival row.arrived_at now) := rfl
  rw [hrs, hexp]
  obtain ⟨hfix, h0, h1⟩ := risk_value_props
    (DataEnrichment.calculate_delay_days (some e) row.arrived_at) row.arrived_at
    (some e) now
  refine ⟨?_, ?_, ?_⟩
  · rw [hfix]
    exact risk_code_eq_claim row.arrived_at e now
  · rw [hfix]
    exact h0
  · rw [hfix]
    exact h1

/-- C5 witness: an ARRIVED shipment 12 days late gets the top delay band. -/
theorem c5_witness :
    (DataEnrichment.enrich_shipment rowLate 100).risk_score =
      risk_score_claim rowLate.arrived_at 10 100
        (DataEnrichment.calculate_delay_days rowLate.expected_arrival rowLate.arrived_at)
  ∧ 0 ≤ (DataEnrichment.enrich_shipment rowLate 100).risk_score
  ∧ (DataEnrichment.enrich_shipment rowLate 100).risk_score ≤ 1 :=
  c5_risk_score rowLate 100 10 rfl (by decide)

/-- C6 (code bug evaluated): calling `get_top_routes` once on a freshly
loaded one-row table hands back a cached table that differs from the loaded
one — the in-place column assignment `df['route'] = ...` has appended a
`route` column to the cached frame, contradicting the read-only-dataset
claim. -/
theorem c6_cache_mutated :
    ((QueryEngine.get_top_routes 10
        [[("shipment_id", "SHP-0000001"), ("source_location", "IN-DEL"),
          ("destination_location", "US-LAX")]]).2 ≠
      [[("shipment_id", "SHP-0000001"), ("source_location", "IN-DEL"),
        ("destination_location", "US-LAX")]])
  ∧ ((QueryEngine.get_top_routes 10
        [[("shipment_id", "SHP-0000001"), ("source_location", "IN-DEL"),
          ("destination_location", "US-LAX")]]).2 =
      [[("shipment_id", "SHP-0000001"), ("source_location", "IN-DEL"),
        ("destination_location", "US-LAX"), ("route", "IN-DEL -> US-LAX")]]) := by
  refine ⟨by decide, by decide⟩

/-- C7: a DETAILS lookup for an id absent from a non-empty dataset yields a
result carrying the explicit not-found error with no data and no result
payload (no enrichment applied); when some row matches, the first matching
row is returned as its enriched view with no error; and the executor's
DETAILS path returns record_count 0 with an empty data list on an absent
id — never an empty success. -/
theorem c7_details_not_found (df : List Row) (sid : String) (now : Int) :
    ((df.filter (fun r => normUp r.shipment_id == normUp sid)).isEmpty = true →
      df ≠ [] →
        (QueryEngine.get_shipment_details df sid now).error =
            some ("Shipment " ++ sid ++ " not found")
      ∧ (QueryEngine.get_shipment_details df sid now).data = none
      ∧ (QueryEngine.get_shipment_details df sid now).result = none)
  ∧ (∀ r rest, df.filter (fun x => normUp x.shipment_id == normUp sid) = r :: rest →
        (QueryEngine.get_shipment_details df sid now).error = none
      ∧ (QueryEngine.get_shipment_details df sid now).data =
          some [QueryEngine.detail_record (DataEnrichment.enrich_shipment r now)])
  ∧ ((df.filter (fun r => r.shipment_id == sid)).isEmpty = true →
      QueryExecutor.execute ⟨"DETAILS", [("shipment_id", sid)], [], [], none⟩ df =
        .basic ⟨"DETAILS", 0, [], "No records found matching filters"⟩) := by
  refine ⟨?_, ?_, ?_⟩
  · intro hemp hne
    have hfil : df.filter (fun r => normUp r.shipment_id == normUp sid) = [] := by
      simpa using hemp
    have key : QueryEngine.get_shipment_details df sid now =
        ⟨"shipment_details", none, none, "No shipment found with ID: " ++ sid,
          some ("Shipment " ++ sid ++ " not found")⟩ := by
      unfold QueryEngine.get_shipment_details
      rw [if_neg (by simp [hne])]
      rw [hfil]
    rw [key]
    exact ⟨rfl, rfl, rfl⟩
  · intro r rest hfil
    have hne : df ≠ [] := by
      intro h
      subst h
      simp at hfil
    have key : QueryEngine.get_shipment_details df sid now =
        ⟨"shipment_details",
          some (QueryEngine.details_result_obj (DataEnrichment.enrich_shipment r now)),
          some [QueryEngine.detail_record (DataEnrichment.enrich_shipment r now)],
          "Shipment " ++ (DataEnrichment.enrich_shipment r now).shipment_id ++ ": " ++
            (DataEnrichment.enrich_shipment r now).status_label, none⟩ := by
      unfold QueryEngine.get_shipment_details
      rw [if_neg (by simp [hne])]
      rw [hfil]
    rw [key]
    exact ⟨rfl, rfl⟩
  · intro hemp
    simp [QueryExecutor.execute, QueryExecutor.apply_filters, hemp]

/-- C8: for a fixed dataset and group-by, the group list returned by a TOP_K
query with positive limit n is a prefix of the list returned with any larger
limit m. -/
theorem c8_topk_limit_monotone (df : List Row) (group_by : List String) (n m : Nat)
    (h1 : 1 ≤ n) (hnm : n ≤ m) :
    ∃ t, (QueryExecutor.execute_top_k df (some n) group_by).data ++ t =
      (QueryExecutor.execute_top_k df (some m) group_by).data := by
  have hn : (n == 0) = false := by
    simpa using Nat.pos_iff_ne_zero.mp h1
  have hm : (m == 0) = false := by
    have : m ≠ 0 := by omega
    simpa using this
  have hdn : (QueryExecutor.execute_top_k df (some n) group_by).data =
      (QueryExecutor.grouped_delay_stats df
        (if group_by.isEmpty then ["destination_location"] else group_by)).take n := by
    unfold QueryExecutor.execute_top_k
    simp [hn]
  have hdm : (QueryExecutor.execute_top_k df (some m) group_by).data =
      (QueryExecutor.grouped_delay_stats df
        (if group_by.isEmpty then ["destination_location"] else group_by)).take m := by
    unfold QueryExecutor.execute_top_k
    simp [hm]
  rw [hdn, hdm]
  refine ⟨((QueryExecutor.grouped_delay_stats df
    (if group_by.isEmpty then ["destination_location"] else group_by)).take m).drop n, ?_⟩
  have h3 : (QueryExecutor.grouped_delay_stats df
      (if group_by.isEmpty then ["destination_location"] else group_by)).take n =
      ((QueryExecutor.grouped_delay_stats df
        (if group_by.isEmpty then ["destination_location"] else group_by)).take m).take n := by
    rw [List.take_take, Nat.min_eq_left hnm]
  rw [h3, List.take_append_drop]

/-- C7 witness: looking up the absent id SHP-0009999 in a one-row dataset
yields the not-found error with no data and no enrichment payload. -/
theorem c7_witness :
    (QueryEngine.get_shipment_details [rowLate] "SHP-0009999" 100).error =
        some ("Shipment " ++ "SHP-0009999" ++ " not found")
  ∧ (QueryEngine.get_shipment_details [rowLate] "SHP-0009999" 100).data = none
  ∧ (QueryEngine.get_shipment_details [rowLate] "SHP-0009999" 100).result = none :=
  (c7_details_not_found [rowLate] "SHP-0009999" 100).1 (by decide) (by decide)

/-- C8 witness: on a two-destination dataset the limit-1 group list is a
prefix of the limit-2 group list. -/
theorem c8_witness :
    ∃ t, (QueryExecutor.execute_top_k [rowLate, rowOnTime] (some 1)
        ["destination_location"]).data ++ t =
      (QueryExecutor.execute_top_k [rowLate, rowOnTime] (some 2)
        ["destination_location"]).data :=
  c8_topk_limit_monotone [rowLate, rowOnTime] ["destination_location"] 1 2
    (by decide) (by decide)

/-- C9 (amended): `smart_query_engine.parse_limit` behaves exactly as the
claim states — it returns the first integer word-token when that token lies
in [1, 100] and 10 when there is no integer token or the token is out of
range.  `QueryPlanner._extract_limit`, however, only matches an integer after
one of the keywords top/first/limit/get, applies no range check, and yields
`None` rather than 10 when nothing matches (see the counterexample). -/
theorem c9_parse_limit_range (query : String) :
    (∀ n, SmartQueryEngine.first_int_token query = some n → 1 ≤ n → n ≤ 100 →
        SmartQueryEngine.parse_limit query = n)
  ∧ (SmartQueryEngine.first_int_token query = none →
      SmartQueryEngine.parse_limit query = 10)
  ∧ (∀ n, SmartQueryEngine.first_int_token query = some n → (n = 0 ∨ 100 < n) →
      SmartQueryEngine.parse_limit query = 10) := by
  unfold SmartQueryEngine.parse_limit SmartQueryEngine.first_int_token
  cases h : (SmartQueryEngine.wordRuns query.toList).filter
      (fun t => t.all Char.isDigit) with
  | nil =>
    refine ⟨?_, fun _ => rfl, ?_⟩
    · intro n hn
      simp at hn
    · intro n hn
      simp at hn
  | cons t ts =>
    refine ⟨?_, ?_, ?_⟩
    · intro n hn hge hle
      simp only [List.head?_cons, Option.map_some'] at hn
      obtain rfl : natOfDigits t = n := by injection hn
      have hcond : (1 ≤ natOfDigits t && natOfDigits t ≤ 100) = true := by
        simp [hge, hle]
      simp [hcond]
    · intro hn
      simp at hn
    · intro n hn hout
      simp only [List.head?_cons, Option.map_some'] at hn
      obtain rfl : natOfDigits t = n := by injection hn
      have hcond : (1 ≤ natOfDigits t && natOfDigits t ≤ 100) = false := by
        rcases hout with h0 | h100
        · simp [h0]
        · simp
          omega
      simp [hcond]

/-- C9 counterexample: the planner's extracted limit is neither the first
in-range integer token nor 10: "show 5 shipments" yields no limit at all
(claim says 5), and "show top 500 routes" yields 500 (claim says 10, since
500 is out of range); `parse_limit` itself does return 5 on the former. -/
theorem c9_counterexample :
    (QueryPlanner.plan_query "show 5 shipments").limit = none
  ∧ SmartQueryEngine.first_int_token "show 5 shipments" = some 5
  ∧ (QueryPlanner.plan_query "show top 500 routes").limit = some 500
  ∧ SmartQueryEngine.parse_limit "show 5 shipments" = 5 := by
  refine ⟨by decide, by decide, by decide, by decide⟩

/-- C9 witness: the amended theorem applied at "top 5 routes". -/
theorem c9_witness : SmartQueryEngine.parse_limit "top 5 routes" = 5 :=
  (c9_parse_limit_range "top 5 routes").1 5 (by decide) (by decide) (by decide)

/-- C10: every produced query plan has an operation among the eight
VALID_OPERATIONS; its filters are exactly the non-null entries of the raw
filter mapping (so no `None` value survives stripping); and any
source/destination filter value lies in the fixed valid-location set. -/
theorem c10_plan_invariants (q : String) :
    (QueryPlanner.plan_query q).operation ∈ QueryPlanner.VALID_OPERATIONS
  ∧ (∀ k v, (k, v) ∈ (QueryPlanner.plan_query q).filters ↔
      (k, some v) ∈ QueryPlanner.raw_filters_of q)
  ∧ (∀ v, ("source_location", v) ∈ (QueryPlanner.plan_query q).filters →
      v ∈ QueryPlanner.valid_locations)
  ∧ (∀ v, ("destination_location", v) ∈ (QueryPlanner.plan_query q).filters →
      v ∈ QueryPlanner.valid_locations) := by
  have hfil : (QueryPlanner.plan_query q).filters =
      stripNone (QueryPlanner.raw_filters_of q) := rfl
  refine ⟨detect_operation_mem _, ?_, ?_, ?_⟩
  · intro k v
    rw [hfil]
    exact mem_stripNone
  · intro v hv
    rw [hfil] at hv
    have hm := mem_stripNone.mp hv
    simp only [QueryPlanner.raw_filters_of, List.mem_cons, List.not_mem_nil,
      or_false] at hm
    rcases hm with h | h | h | h | h
    · simp only [Prod.mk.injEq] at h
      exact absurd h.1 (by decide)
    · simp only [Prod.mk.injEq] at h
      exact (extract_locations_valid (lowerStrip q)).1 v h.2.symm
    · simp only [Prod.mk.injEq] at h
      exact absurd h.1 (by decide)
    · simp only [Prod.mk.injEq] at h
      exact absurd h.1 (by decide)
    · simp only [Prod.mk.injEq] at h
      exact absurd h.1 (by decide)
  · intro v hv
    rw [hfil] at hv
    have hm := mem_stripNone.mp hv
    simp only [QueryPlanner.raw_filters_of, List.mem_cons, List.not_mem_nil,
      or_false] at hm
    rcases hm with h | h | h | h | h
    · simp only [Prod.mk.injEq] at h
      exact absurd h.1 (by decide)
    · simp only [Prod.mk.injEq] at h
      exact absurd h.1 (by decide)
    · simp only [Prod.mk.injEq] at h
      exact (extract_locations_valid (lowerStrip q)).2 v h.2.symm
    · simp only [Prod.mk.injEq] at h
      exact absurd h.1 (by decide)
    · simp only [Prod.mk.injEq] at h
      exact absurd h.1 (by decide)

/-- C10 witness: a destination filter produced from a real question carries a
valid location. -/
theorem c10_witness :
    ("destination_location", "IN-DEL") ∈
        (QueryPlanner.plan_query "how many shipments to in-del").filters
  ∧ "IN-DEL" ∈ QueryPlanner.valid_locations :=
  ⟨by decide,
   (c10_plan_invariants "how many shipments to in-del").2.2.2 "IN-DEL" (by decide)⟩
